import Mathlib

/-!
Verification of the Alert Classification & Analysis Pipeline
(`cdk/lambda/alert_analyzer`): a shallow embedding of the Python source in
Lean 4, together with theorems settling the specification claims.

Modelling conventions:
* Python values flowing through the pipeline are modelled by the `Json`
  inductive (dicts are association lists in insertion order).
* Python exceptions are modelled with `Except String`; the string carries
  the exception class name.
* Python `float` arithmetic is modelled with exact rationals (`Rat`); no
  claim observes binary floating-point rounding.
* External effects (boto3 API calls, the Bedrock LLM, `requests.post`,
  `os.getenv`, wall-clock timestamps) are modelled as oracle fields of an
  `Env` record; each oracle returns either a structured response or the
  exception the call raised.
-/

/-- A Python/JSON value as it flows through the analyzer. Dicts keep
insertion order; all dict keys in this pipeline are strings. -/
inductive Json where
  | null : Json
  | bool : Bool → Json
  | num : Rat → Json
  | str : String → Json
  | arr : List Json → Json
  | obj : List (String × Json) → Json

/-- First-match association-list lookup (Python dict lookup; keys are
unique because `dictSet` updates in place). -/
def lookupKey : List (String × Json) → String → Option Json
  | [], _ => none
  | (k, v) :: rest, key => if k == key then some v else lookupKey rest key

/-- Python dict assignment `d[k] = v`: update in place if the key exists,
else append (insertion order preserved). -/
def dictSet : List (String × Json) → String → Json → List (String × Json)
  | [], key, v => [(key, v)]
  | (k, w) :: rest, key, v =>
    if k == key then (k, v) :: rest else (k, w) :: dictSet rest key v

/-- `List Char` infix test: does `p` occur as a contiguous run in `l`? -/
def listInfix (p : List Char) : List Char → Bool
  | [] => p.isEmpty
  | c :: rest => p.isPrefixOf (c :: rest) || listInfix p rest

/-- Python `needle in haystack` on strings (substring containment). -/
def strContains (haystack needle : String) : Bool :=
  listInfix needle.data haystack.data

/-- Python `str.upper()` (ASCII; the alarm names in scope are ASCII). -/
def pyUpper (s : String) : String :=
  ⟨s.data.map Char.toUpper⟩

/-- Python `str.lower()` (ASCII). -/
def pyLower (s : String) : String :=
  ⟨s.data.map Char.toLower⟩

/-- Python `s[:n]` on a string: the first `n` characters. -/
def strTake (s : String) (n : Nat) : String :=
  ⟨s.data.take n⟩

/-- Python `str.replace(old, new)` on the character lists (all
non-overlapping occurrences, left to right); fuel-indexed so it is
structurally recursive — every step consumes at least one character, so
fuel `= length` never runs out. -/
def listReplaceFuel (old new : List Char) : Nat → List Char → List Char
  | 0, l => l
  | _ + 1, [] => []
  | fuel + 1, c :: rest =>
    if old.isPrefixOf (c :: rest) ∧ old ≠ [] then
      new ++ listReplaceFuel old new fuel (List.drop (old.length - 1) rest)
    else
      c :: listReplaceFuel old new fuel rest

/-- Python `str.replace` lifted to `String`. -/
def strReplace (s old new : String) : String :=
  ⟨listReplaceFuel old.data new.data s.data.length s.data⟩

/-- Python `str.title()`: first letter of each alphabetic run uppercased,
the rest lowercased. -/
def pyTitleAux : List Char → Bool → List Char
  | [], _ => []
  | c :: rest, prevAlpha =>
    if c.isAlpha then
      (if prevAlpha then c.toLower else c.toUpper) :: pyTitleAux rest true
    else
      c :: pyTitleAux rest false

/-- Python `str.title()`. -/
def pyTitle (s : String) : String :=
  ⟨pyTitleAux s.data false⟩

/-- Python truthiness (`bool(x)`) of a value. -/
def pyTruthy : Json → Bool
  | .null => false
  | .bool b => b
  | .num q => q ≠ 0
  | .str s => s ≠ ""
  | .arr xs => !xs.isEmpty
  | .obj kvs => !kvs.isEmpty

/-- Python `==` between a value and a string literal (only equal strings
compare equal; other types compare unequal without raising). -/
def jsonEqStr (v : Json) (s : String) : Bool :=
  match v with
  | .str t => t == s
  | _ => false

/-- Python `item in container` for a string item: substring test on
strings, element equality on lists, key membership on dicts; `TypeError`
on numbers, booleans and `None`. -/
def pyIn (item : String) : Json → Except String Bool
  | .str s => .ok (strContains s item)
  | .arr xs => .ok (xs.any (fun v => jsonEqStr v item))
  | .obj kvs => .ok (kvs.any (fun kv => kv.1 == item))
  | _ => .error "TypeError: argument of type is not iterable"

/-- Python `container.get(key, default)`: raises `AttributeError` unless
the container is a dict. -/
def pyGet (container : Json) (key : String) (dflt : Json) : Except String Json :=
  match container with
  | .obj kvs => .ok ((lookupKey kvs key).getD dflt)
  | _ => .error "AttributeError: object has no attribute get"

/-- Python `container[key]` for a string key: dict lookup (`KeyError` when
absent); `TypeError` on any non-dict container. -/
def pyIndex (container : Json) (key : String) : Except String Json :=
  match container with
  | .obj kvs =>
    match lookupKey kvs key with
    | some v => .ok v
    | none => .error ("KeyError: " ++ key)
  | _ => .error "TypeError: indices must be integers"

/-- Python `len(x)`: strings, lists and dicts have a length; numbers,
booleans and `None` raise `TypeError`. -/
def pyLen : Json → Except String Nat
  | .str s => .ok s.data.length
  | .arr xs => .ok xs.length
  | .obj kvs => .ok kvs.length
  | _ => .error "TypeError: object has no len"

/-- Python `container[0]`: list indexing; a one-character string for
strings; `KeyError` on dicts (string keys only in this model);
`TypeError` otherwise. -/
def pyIndexZero : Json → Except String Json
  | .arr [] => .error "IndexError: list index out of range"
  | .arr (x :: _) => .ok x
  | .str s =>
    match s.data with
    | [] => .error "IndexError: string index out of range"
    | c :: _ => .ok (.str ⟨[c]⟩)
  | .obj _ => .error "KeyError: 0"
  | _ => .error "TypeError: object is not subscriptable"

/-- The value as a string when it is one; `TypeError` otherwise (used
where Python would raise on a non-string, e.g. `re.search` input). -/
def asStr (err : String) : Json → Except String String
  | .str s => .ok s
  | _ => .error err

/-- Lowercase hex digit. -/
def hexDigit (n : Nat) : Char :=
  if n < 10 then Char.ofNat (48 + n) else Char.ofNat (87 + n)

/-- Four lowercase hex digits (for `\uXXXX` escapes). -/
def hex4 (n : Nat) : List Char :=
  [hexDigit (n / 4096 % 16), hexDigit (n / 256 % 16),
   hexDigit (n / 16 % 16), hexDigit (n % 16)]

/-- JSON escape of one character, per `json.dumps` with its default
`ensure_ascii=True`: short escapes for the common control characters,
`\uXXXX` (with surrogate pairs) for other non-ASCII or control input. -/
def escChar (c : Char) : List Char :=
  if c = '"' then ['\\', '"']
  else if c = '\\' then ['\\', '\\']
  else if c = '\n' then ['\\', 'n']
  else if c = '\t' then ['\\', 't']
  else if c = '\r' then ['\\', 'r']
  else if c.toNat = 8 then ['\\', 'b']
  else if c.toNat = 12 then ['\\', 'f']
  else if c.toNat < 32 then '\\' :: 'u' :: hex4 c.toNat
  else if c.toNat < 127 then [c]
  else if c.toNat ≤ 0xFFFF then '\\' :: 'u' :: hex4 c.toNat
  else
    let m := c.toNat - 0x10000
    ('\\' :: 'u' :: hex4 (0xD800 + m / 0x400)) ++
      ('\\' :: 'u' :: hex4 (0xDC00 + m % 0x400))

/-- JSON string literal for `s` (quotes plus escaped content). -/
def jsonStrLit (s : String) : String :=
  ⟨'"' :: (s.data.flatMap escChar) ++ ['"']⟩

/-- Rendering of a number. Integral rationals print like Python ints;
Python renders its binary floats in decimal, which this exact-rational
model cannot reproduce bit-for-bit — no claim observes a serialized
non-integral number. -/
def numRepr (q : Rat) : String :=
  if q.den = 1 then toString q.num else toString q

mutual
/-- `json.dumps(v)` with default separators (`", "` and `": "`). -/
def jsonDumps : Json → String
  | .null => "null"
  | .bool b => if b then "true" else "false"
  | .num q => numRepr q
  | .str s => jsonStrLit s
  | .arr xs => "[" ++ dumpsArr xs ++ "]"
  | .obj kvs => "\x7b" ++ dumpsObj kvs ++ "\x7d"
def dumpsArr : List Json → String
  | [] => ""
  | [x] => jsonDumps x
  | x :: y :: rest => jsonDumps x ++ ", " ++ dumpsArr (y :: rest)
def dumpsObj : List (String × Json) → String
  | [] => ""
  | [(k, v)] => jsonStrLit k ++ ": " ++ jsonDumps v
  | (k, v) :: kv :: rest =>
    jsonStrLit k ++ ": " ++ jsonDumps v ++ ", " ++ dumpsObj (kv :: rest)
end

/-- Spaces for one indentation level. -/
def indentSp (n : Nat) : String :=
  ⟨List.replicate n ' '⟩

mutual
/-- `json.dumps(v, indent=2)` (used only to render the LLM prompt). -/
def jsonDumpsInd (level : Nat) : Json → String
  | .null => "null"
  | .bool b => if b then "true" else "false"
  | .num q => numRepr q
  | .str s => jsonStrLit s
  | .arr [] => "[]"
  | .arr (x :: xs) =>
    "[\n" ++ dumpsIndArr (level + 2) (x :: xs) ++ "\n" ++ indentSp level ++ "]"
  | .obj [] => "\x7b\x7d"
  | .obj (kv :: kvs) =>
    "\x7b\n" ++ dumpsIndObj (level + 2) (kv :: kvs) ++ "\n" ++ indentSp level ++ "\x7d"
def dumpsIndArr (level : Nat) : List Json → String
  | [] => ""
  | [x] => indentSp level ++ jsonDumpsInd level x
  | x :: y :: rest =>
    indentSp level ++ jsonDumpsInd level x ++ ",\n" ++ dumpsIndArr level (y :: rest)
def dumpsIndObj (level : Nat) : List (String × Json) → String
  | [] => ""
  | [(k, v)] => indentSp level ++ jsonStrLit k ++ ": " ++ jsonDumpsInd level v
  | (k, v) :: kv :: rest =>
    indentSp level ++ jsonStrLit k ++ ": " ++ jsonDumpsInd level v ++ ",\n" ++
      dumpsIndObj level (kv :: rest)
end

mutual
/-- Python `str(v)` for the values in scope (`f-string` rendering):
strings verbatim, `True`/`False`/`None`, containers via `repr`. -/
def pyStr : Json → String
  | .str s => s
  | .null => "None"
  | .bool b => if b then "True" else "False"
  | .num q => numRepr q
  | .arr xs => "[" ++ pyReprArr xs ++ "]"
  | .obj kvs => "\x7b" ++ pyReprObj kvs ++ "\x7d"
/-- Python `repr(v)`: like `str` but strings get single quotes (the
repr-level character escaping is not modelled; no claim observes it). -/
def pyRepr : Json → String
  | .str s => "'" ++ s ++ "'"
  | .null => "None"
  | .bool b => if b then "True" else "False"
  | .num q => numRepr q
  | .arr xs => "[" ++ pyReprArr xs ++ "]"
  | .obj kvs => "\x7b" ++ pyReprObj kvs ++ "\x7d"
def pyReprArr : List Json → String
  | [] => ""
  | [x] => pyRepr x
  | x :: y :: rest => pyRepr x ++ ", " ++ pyReprArr (y :: rest)
def pyReprObj : List (String × Json) → String
  | [] => ""
  | [(k, v)] => "'" ++ k ++ "': " ++ pyRepr v
  | (k, v) :: kv :: rest =>
    "'" ++ k ++ "': " ++ pyRepr v ++ ", " ++ pyReprObj (kv :: rest)
end

/-- Digit run to the number it denotes. -/
def digitsToNat : List Char → Nat
  | [] => 0
  | ds => ds.foldl (fun acc c => acc * 10 + (c.toNat - 48)) 0

/-! ## Classifier (`AlertAnalyzerWorkflow._classify_message` and helpers) -/

/-- Alert metadata: a Python dict. -/
abbrev Metadata := List (String × Json)

/-- Classification result: `(alert_type, metadata, slack_channel)`. -/
abbrev ClassifyRes := String × Metadata × String

/-- `_extract_threshold`'s regex `(\d+)%` via `re.search`, as a single
left-to-right scan: `run` accumulates (reversed) the digit run ending just
before the current position; the first `%` preceded by a non-empty digit
run yields that run's value. This computes the leftmost maximal digit run
immediately followed by `%` — exactly what `re.search(r'(\d+)%', s)`
matches, since a match starting inside a digit run succeeds only if the
run's maximal extension is followed by `%`. -/
def extractAux : List Char → List Char → Nat
  | [], _ => 0
  | c :: rest, run =>
    if c = '%' then
      if run.isEmpty then extractAux rest [] else digitsToNat run.reverse
    else if c.isDigit then extractAux rest (c :: run)
    else extractAux rest []

/-- `AlertAnalyzerWorkflow._extract_threshold(alarm_name)`; `0` when the
pattern does not occur. -/
def extractThreshold (alarmName : String) : Nat :=
  extractAux alarmName.data []

/-- Threshold extraction on a dict value: `re.search` raises `TypeError`
unless handed a string. -/
def extractThresholdJ (v : Json) : Except String Nat := do
  let s ← asStr "TypeError: expected string or bytes-like object" v
  return extractThreshold s

/-- First classifier rule (budget alarms,
`alert_workflow.py` lines 146-156). -/
def ruleBudget (message : Json) : Except String (Option ClassifyRes) := do
  let hasAN ← pyIn "AlarmName" message
  if !hasAN then return none
  let anVal ← pyGet message "AlarmName" (.str "")
  let hasBudget ← pyIn "Budget" anVal
  if !hasBudget then return none
  let alarmName ← pyIndex message "AlarmName"
  let hasMonthly ← pyIn "Monthly" alarmName
  if hasMonthly then
    let nsv ← pyGet message "NewStateValue" .null
    if jsonEqStr nsv "ALARM" then
      let t ← extractThresholdJ alarmName
      if t ≥ 100 then
        return some ("budget_critical", [("threshold", .num t)], "critical")
      else if t ≥ 80 then
        return some ("budget_warning", [("threshold", .num t)], "heartbeat")
      else return none
    else return none
  else
    let hasDaily ← pyIn "Daily" alarmName
    if hasDaily then return some ("daily_budget_exceeded", [], "heartbeat")
    else return none

/-- Second classifier rule (daily cost report, lines 159-160). -/
def ruleDailyCost (message : Json) : Except String (Option ClassifyRes) := do
  let hasAN ← pyIn "AlarmName" message
  if !hasAN then return none
  let anVal ← pyGet message "AlarmName" (.str "")
  let hasDCR ← pyIn "DailyCostReport" anVal
  if hasDCR then return some ("daily_cost_report", [], "heartbeat")
  else return none

/-- Third classifier rule (generic CloudWatch alarms, lines 163-180). -/
def ruleCloudwatch (message : Json) : Except String (Option ClassifyRes) := do
  let hasAN ← pyIn "AlarmName" message
  if !hasAN then return none
  let hasNSV ← pyIn "NewStateValue" message
  if !hasNSV then return none
  let alarmName ← pyIndex message "AlarmName"
  let stateV ← pyIndex message "NewStateValue"
  let reason ← pyGet message "NewStateReason" (.str "")
  let an ← asStr "AttributeError: object has no attribute upper" alarmName
  let up := pyUpper an
  if strContains up "ERROR" || strContains up "CRITICAL" then
    return some ("cloudwatch_alarm_error",
      [("alarm_name", alarmName), ("state", stateV), ("reason", reason)], "critical")
  else
    return some ("cloudwatch_alarm_warning",
      [("alarm_name", alarmName), ("state", stateV), ("reason", reason)], "heartbeat")

/-- Fourth classifier rule (EMR event-bus events, lines 183-199). -/
def ruleEmr (message : Json) : Except String (Option ClassifyRes) := do
  let hasDT ← pyIn "detail-type" message
  if !hasDT then return none
  let dtVal ← pyIndex message "detail-type"
  let hasEMR ← pyIn "EMR" dtVal
  if !hasEMR then return none
  let detail ← pyGet message "detail" (.obj [])
  let stateV ← pyGet detail "state" (.str "")
  let clusterId ← pyGet detail "clusterId" (.str "")
  let hasTerm ← pyIn "TERMINATED_WITH_ERRORS" stateV
  if hasTerm then
    return some ("emr_cluster_failure",
      [("cluster_id", clusterId), ("state", stateV)], "critical")
  else
    let hasFailed ← pyIn "FAILED" stateV
    if hasFailed then
      return some ("emr_step_failure",
        [("cluster_id", clusterId), ("state", stateV)], "critical")
    else return none

/-- `AlertAnalyzerWorkflow._classify_message(message)`: the ordered rules,
first match wins, default `('custom_event', {}, 'heartbeat')`. -/
def classifyMessage (message : Json) : Except String ClassifyRes := do
  let r1 ← ruleBudget message
  match r1 with
  | some r => return r
  | none =>
    let r2 ← ruleDailyCost message
    match r2 with
    | some r => return r
    | none =>
      let r3 ← ruleCloudwatch message
      match r3 with
      | some r => return r
      | none =>
        let r4 ← ruleEmr message
        match r4 with
        | some r => return r
        | none => return ("custom_event", [], "heartbeat")

/-! ## Analysis gate (`AlertAnalyzerWorkflow._should_analyze`) -/

/-- The values produced by Python's `for pattern in container`: characters
of a string, elements of a list, keys of a dict; `TypeError` otherwise. -/
def pyIterStrs : Json → Except String (List Json)
  | .str s => .ok (s.data.map (fun c => .str ⟨[c]⟩))
  | .arr xs => .ok xs
  | .obj kvs => .ok (kvs.map (fun kv => Json.str kv.1))
  | _ => .error "TypeError: object is not iterable"

/-- The allow/deny loop body: scan patterns in order, return `true` on the
first substring hit; a non-string pattern raises `TypeError` when tested. -/
def firstPatternMatch (hay : String) : List Json → Except String Bool
  | [] => .ok false
  | p :: rest =>
    match p with
    | .str s => if strContains hay s then .ok true else firstPatternMatch hay rest
    | _ => .error "TypeError: in requires string as left operand"

/-- `AlertAnalyzerWorkflow._should_analyze(alert_type, message)` (lines
211-244): global switch, then allow-list, then deny-list, then the
per-type rule table (the raw looked-up value is returned verbatim). -/
def shouldAnalyze (config : Json) (alertType : String) (message : Json) :
    Except String Json := do
  let aiConfig ← pyGet config "ai_analysis" (.obj [])
  let enabled ← pyGet aiConfig "enabled" (.bool true)
  if !pyTruthy enabled then return .bool false
  let messageStr := jsonDumps message
  let wl ← pyGet aiConfig "whitelist" (.arr [])
  let wlItems ← pyIterStrs wl
  let wMatch ← firstPatternMatch messageStr wlItems
  if wMatch then return .bool true
  let bl ← pyGet aiConfig "blacklist" (.arr [])
  let blItems ← pyIterStrs bl
  let bMatch ← firstPatternMatch messageStr blItems
  if bMatch then return .bool false
  let rules ← pyGet aiConfig "rules" (.obj [])
  pyGet rules ("analyze_" ++ alertType) (.bool false)

/-! ## `json.loads` model (used by the SNS envelope unwrap and the
CloudTrail event parse) -/

/-- JSON whitespace. -/
def isJsonWs (c : Char) : Bool :=
  c = ' ' || c = '\t' || c = '\n' || c = '\r'

/-- Skip whitespace. -/
def skipWs (cs : List Char) : List Char :=
  List.dropWhile isJsonWs cs

/-- Hex digit value. -/
def hexVal (c : Char) : Option Nat :=
  if '0' ≤ c ∧ c ≤ '9' then some (c.toNat - 48)
  else if 'a' ≤ c ∧ c ≤ 'f' then some (c.toNat - 87)
  else if 'A' ≤ c ∧ c ≤ 'F' then some (c.toNat - 55)
  else none

/-- Four hex digits to a code unit. -/
def hex4Val : List Char → Option (Nat × List Char)
  | a :: b :: c :: d :: rest =>
    match hexVal a, hexVal b, hexVal c, hexVal d with
    | some x, some y, some z, some w => some (((x * 16 + y) * 16 + z) * 16 + w, rest)
    | _, _, _, _ => none
  | _ => none

/-- JSON string body after the opening quote (fuel-indexed; fuel `≥`
remaining length never runs out). Handles the standard escapes and
`\uXXXX`, combining adjacent surrogate pairs as `json.loads` does. -/
def parseStrBody : Nat → List Char → List Char → Except String (String × List Char)
  | 0, _, _ => .error "JSONDecodeError: unterminated string"
  | _ + 1, [], _ => .error "JSONDecodeError: unterminated string"
  | fuel + 1, c :: rest, acc =>
    if c = '"' then .ok (⟨acc.reverse⟩, rest)
    else if c = '\\' then
      match rest with
      | [] => .error "JSONDecodeError: unterminated string"
      | e :: rest2 =>
        if e = '"' then parseStrBody fuel rest2 ('"' :: acc)
        else if e = '\\' then parseStrBody fuel rest2 ('\\' :: acc)
        else if e = '/' then parseStrBody fuel rest2 ('/' :: acc)
        else if e = 'b' then parseStrBody fuel rest2 (Char.ofNat 8 :: acc)
        else if e = 'f' then parseStrBody fuel rest2 (Char.ofNat 12 :: acc)
        else if e = 'n' then parseStrBody fuel rest2 ('\n' :: acc)
        else if e = 'r' then parseStrBody fuel rest2 ('\r' :: acc)
        else if e = 't' then parseStrBody fuel rest2 ('\t' :: acc)
        else if e = 'u' then
          match hex4Val rest2 with
          | none => .error "JSONDecodeError: invalid unicode escape"
          | some (hi, rest3) =>
            if 0xD800 ≤ hi ∧ hi < 0xDC00 then
              match rest3 with
              | '\\' :: 'u' :: rest4 =>
                match hex4Val rest4 with
                | some (lo, rest5) =>
                  if 0xDC00 ≤ lo ∧ lo < 0xE000 then
                    parseStrBody fuel rest5
                      (Char.ofNat (0x10000 + (hi - 0xD800) * 0x400 + (lo - 0xDC00)) :: acc)
                  else parseStrBody fuel rest3 (Char.ofNat hi :: acc)
                | none => parseStrBody fuel rest3 (Char.ofNat hi :: acc)
              | _ => parseStrBody fuel rest3 (Char.ofNat hi :: acc)
            else parseStrBody fuel rest2 (Char.ofNat hi :: acc)
        else .error "JSONDecodeError: invalid escape"
    else parseStrBody fuel rest (c :: acc)

/-- JSON number (RFC 8259 grammar), as an exact rational. -/
def parseNumber (cs : List Char) : Except String (Rat × List Char) :=
  let (sign, cs1) : Int × List Char :=
    match cs with
    | '-' :: rest => (-1, rest)
    | _ => (1, cs)
  let intPart := cs1.takeWhile Char.isDigit
  let cs2 := cs1.dropWhile Char.isDigit
  if intPart.isEmpty then .error "JSONDecodeError: expecting value"
  else
    let (frac, flen, cs3) : Nat × Nat × List Char :=
      match cs2 with
      | '.' :: rest =>
        let fd := rest.takeWhile Char.isDigit
        (digitsToNat fd, fd.length, rest.dropWhile Char.isDigit)
      | _ => (0, 0, cs2)
    if (match cs2 with | '.' :: rest => (rest.takeWhile Char.isDigit).isEmpty | _ => false) then
      .error "JSONDecodeError: expecting digits after decimal point"
    else
      let (expo, cs4) : Int × List Char :=
        match cs3 with
        | 'e' :: rest | 'E' :: rest =>
          let (esign, r2) : Int × List Char :=
            match rest with
            | '-' :: r => (-1, r)
            | '+' :: r => (1, r)
            | _ => (1, rest)
          let ed := r2.takeWhile Char.isDigit
          (esign * (digitsToNat ed : Int), r2.dropWhile Char.isDigit)
        | _ => (0, cs3)
      let mant : Int := sign * ((digitsToNat intPart : Int) * (10 : Int) ^ flen + (frac : Int))
      let q : Rat :=
        if 0 ≤ expo then mkRat (mant * (10 : Int) ^ expo.toNat) ((10 : Nat) ^ flen)
        else mkRat mant ((10 : Nat) ^ flen * (10 : Nat) ^ (-expo).toNat)
      .ok (q, cs4)

mutual
/-- JSON value (fuel-indexed recursive descent). -/
def parseValue : Nat → List Char → Except String (Json × List Char)
  | 0, _ => .error "JSONDecodeError: out of fuel"
  | fuel + 1, cs =>
    match skipWs cs with
    | [] => .error "JSONDecodeError: expecting value"
    | c :: rest =>
      if c = '"' then
        match parseStrBody (rest.length + 1) rest [] with
        | .ok (s, r) => .ok (.str s, r)
        | .error e => .error e
      else if c = '[' then
        match skipWs rest with
        | ']' :: r2 => .ok (.arr [], r2)
        | _ => parseElems fuel rest []
      else if c = '\x7b' then
        match skipWs rest with
        | '\x7d' :: r2 => .ok (.obj [], r2)
        | _ => parseMembers fuel rest []
      else if c = 't' then
        if ['r', 'u', 'e'].isPrefixOf rest then .ok (.bool true, rest.drop 3)
        else .error "JSONDecodeError: expecting value"
      else if c = 'f' then
        if ['a', 'l', 's', 'e'].isPrefixOf rest then .ok (.bool false, rest.drop 4)
        else .error "JSONDecodeError: expecting value"
      else if c = 'n' then
        if ['u', 'l', 'l'].isPrefixOf rest then .ok (.null, rest.drop 3)
        else .error "JSONDecodeError: expecting value"
      else if c.isDigit ∨ c = '-' then
        match parseNumber (c :: rest) with
        | .ok (q, r) => .ok (.num q, r)
        | .error e => .error e
      else .error "JSONDecodeError: expecting value"
/-- Array elements after `[` (at least one). -/
def parseElems : Nat → List Char → List Json → Except String (Json × List Char)
  | 0, _, _ => .error "JSONDecodeError: out of fuel"
  | fuel + 1, cs, acc =>
    match parseValue fuel cs with
    | .error e => .error e
    | .ok (v, rest) =>
      match skipWs rest with
      | ',' :: r2 => parseElems fuel r2 (acc ++ [v])
      | ']' :: r2 => .ok (.arr (acc ++ [v]), r2)
      | _ => .error "JSONDecodeError: expecting comma"
/-- Object members after the opening brace (at least one); duplicate keys
overwrite in place, as in Python. -/
def parseMembers : Nat → List Char → List (String × Json) →
    Except String (Json × List Char)
  | 0, _, _ => .error "JSONDecodeError: out of fuel"
  | fuel + 1, cs, acc =>
    match skipWs cs with
    | '"' :: rest =>
      match parseStrBody (rest.length + 1) rest [] with
      | .error e => .error e
      | .ok (k, r1) =>
        match skipWs r1 with
        | ':' :: r2 =>
          match parseValue fuel r2 with
          | .error e => .error e
          | .ok (v, r3) =>
            match skipWs r3 with
            | ',' :: r4 => parseMembers fuel r4 (dictSet acc k v)
            | '\x7d' :: r4 => .ok (.obj (dictSet acc k v), r4)
            | _ => .error "JSONDecodeError: expecting comma"
        | _ => .error "JSONDecodeError: expecting colon"
    | _ => .error "JSONDecodeError: expecting property name"
end

/-- `json.loads(s)`: parse one value, then require only whitespace to
remain. -/
def jsonLoads (s : String) : Except String Json :=
  match parseValue (4 * s.data.length + 16) s.data with
  | .error e => .error e
  | .ok (v, rest) =>
    if (skipWs rest).isEmpty then .ok v
    else .error "JSONDecodeError: extra data"

/-! ## Numeric helpers (Python `round`, `min`/`max` clamping) -/

/-- Exact rational multiplication via `mkRat` (Batteries marks
`Rat.mul`/`Rat.add`/`Rat.div` irreducible, which would block witness
evaluation; these compute the same values). -/
def qMul (a b : Rat) : Rat := mkRat (a.num * b.num) (a.den * b.den)

/-- Exact rational addition via `mkRat`. -/
def qAdd (a b : Rat) : Rat :=
  mkRat (a.num * (b.den : Int) + b.num * (a.den : Int)) (a.den * b.den)

/-- Exact rational division via `mkRat` (division by zero yields `0`;
every division in the source is guarded by a positivity test). -/
def qDiv (a b : Rat) : Rat :=
  if b.num < 0 then mkRat (-(a.num * (b.den : Int))) (a.den * b.num.natAbs)
  else mkRat (a.num * (b.den : Int)) (a.den * b.num.natAbs)

/-- Round to the nearest integer, ties to even (Python `round`). Python
rounds the binary float; this model rounds the exact rational — no claim
observes the difference. -/
def roundHalfEven (q : Rat) : Int :=
  let n := q.num
  let d := (q.den : Int)
  let f := Int.fdiv n d
  let twiceRem := 2 * (n - f * d)
  if twiceRem < d then f
  else if d < twiceRem then f + 1
  else if f % 2 = 0 then f else f + 1

/-- Python `round(x, 2)`. -/
def round2 (q : Rat) : Rat := mkRat (roundHalfEven (qMul q (mkRat 100 1))) 100

/-- Python `round(x, 1)`. -/
def round1 (q : Rat) : Rat := mkRat (roundHalfEven (qMul q (mkRat 10 1))) 10

/-- Python `min(max(lo, x), hi)` parameter clamping. -/
def clampInt (lo : Int) (x : Int) (hi : Int) : Int := min (max lo x) hi

/-! ## The literal non-ASCII prefixes of the source file

The repository file stores its emoji as mojibake: the bytes decode (as
UTF-8) to the code-point sequences below, which is exactly what the
Python string literals contain. They are defined by code point here so a
reviewer can diff them against the bytes of `alert_workflow.py`. -/

/-- Line 432 prefix characters (the "robot" marker of the AI-analysis
section): U+00F0 U+0178 U+00A4 U+2013. -/
def mojiRobot : String := ⟨[Char.ofNat 0xF0, Char.ofNat 0x178, Char.ofNat 0xA4, Char.ofNat 0x2013]⟩

/-- Line 444 prefix (context-data section): U+00F0 U+0178 U+201C U+0160. -/
def mojiChart : String := ⟨[Char.ofNat 0xF0, Char.ofNat 0x178, Char.ofNat 0x201C, Char.ofNat 0x160]⟩

/-- Line 453 prefix (footer clock): U+00F0 U+0178 U+2022. -/
def mojiClock : String := ⟨[Char.ofNat 0xF0, Char.ofNat 0x178, Char.ofNat 0x2022]⟩

/-- Line 467 (danger style): U+00F0 U+0178 U+201D U+00B4. -/
def mojiRed : String := ⟨[Char.ofNat 0xF0, Char.ofNat 0x178, Char.ofNat 0x201D, Char.ofNat 0xB4]⟩

/-- Line 469 (warning style): U+00F0 U+0178 U+0178 U+00A1. -/
def mojiYellow : String := ⟨[Char.ofNat 0xF0, Char.ofNat 0x178, Char.ofNat 0x178, Char.ofNat 0xA1]⟩

/-- Line 471 (informational style): U+00F0 U+0178 U+201D U+00B5. -/
def mojiBlue : String := ⟨[Char.ofNat 0xF0, Char.ofNat 0x178, Char.ofNat 0x201D, Char.ofNat 0xB5]⟩

/-- Line 488 (cost line): U+00F0 U+0178 U+2019 U+00B0. -/
def mojiMoney : String := ⟨[Char.ofNat 0xF0, Char.ofNat 0x178, Char.ofNat 0x2019, Char.ofNat 0xB0]⟩

/-- Line 493 (top-services line): U+00F0 U+0178 U+201D. -/
def mojiMagnify : String := ⟨[Char.ofNat 0xF0, Char.ofNat 0x178, Char.ofNat 0x201D]⟩

/-- Line 497 (EMR line): U+00F0 U+0178 U+201C U+00A6. -/
def mojiPackage : String := ⟨[Char.ofNat 0xF0, Char.ofNat 0x178, Char.ofNat 0x201C, Char.ofNat 0xA6]⟩

/-! ## Connector models (`tools/*.py`)

Each connector wraps its whole body in `try/except Exception`, returning
a result dict whose `error` key carries `str(e)` on failure. The boto3
call is modelled as an oracle value: `.error e` covers both an API
exception and a malformed response (a `KeyError` while reading it). -/

/-- `cost_tools.get_cost_breakdown(days)`. The `dateRange` oracle renders
`datetime.now().date()` arithmetic for the clamped day count. -/
def getCostBreakdown (days : Int) (dateRange : Int → String × String)
    (oracle : Except String (List (String × Rat))) : Json :=
  let d := clampInt 1 days 90
  let range := dateRange d
  match oracle with
  | .error e => .obj [("error", .str e), ("total", .num 0), ("currency", .str "USD")]
  | .ok pts =>
    let dailyCosts := pts.map (fun p => (p.1, round2 p.2))
    let total : Rat := pts.foldl (fun acc p => qAdd acc p.2) 0
    let n := dailyCosts.length
    let trend :=
      if n ≥ 2 then
        let firstHalf : Rat :=
          ((dailyCosts.take (n / 2)).map Prod.snd).foldl qAdd 0
        let secondHalf : Rat :=
          ((dailyCosts.drop (n / 2)).map Prod.snd).foldl qAdd 0
        if secondHalf > qMul firstHalf (mkRat 11 10) then "increasing"
        else if secondHalf < qMul firstHalf (mkRat 9 10) then "decreasing"
        else "stable"
      else "unknown"
    .obj [("total", .num (round2 total)), ("currency", .str "USD"),
      ("daily", .arr (dailyCosts.map (fun p =>
        .obj [("date", .str p.1), ("cost", .num p.2)]))),
      ("average_per_day", .num (if n ≠ 0 then round2 (qDiv total (mkRat n 1)) else 0)),
      ("trend", .str trend),
      ("period", .str (range.1 ++ " to " ++ range.2))]

/-- Stable descending insertion (by cost) — same output as Python's
stable `list.sort(key=..., reverse=True)`. -/
def insertDesc (x : String × Rat) : List (String × Rat) → List (String × Rat)
  | [] => [x]
  | y :: rest => if y.2 ≥ x.2 then y :: insertDesc x rest else x :: y :: rest

/-- Stable descending sort by cost. -/
def sortDesc (l : List (String × Rat)) : List (String × Rat) :=
  l.foldl (fun acc x => insertDesc x acc) []

/-- `cost_tools.get_service_costs(days, top)`. -/
def getServiceCosts (days top : Int) (dateRange : Int → String × String)
    (oracle : Except String (List (String × Rat))) : Json :=
  let d := clampInt 1 days 90
  let t := clampInt 1 top 20
  let range := dateRange d
  match oracle with
  | .error e =>
    .obj [("error", .str e), ("services", .arr []), ("total", .num 0),
      ("currency", .str "USD")]
  | .ok groups =>
    let included := groups.filter (fun g => g.2 > mkRat 1 100)
    let services := included.map (fun g => (g.1, round2 g.2))
    let total : Rat := included.foldl (fun acc g => qAdd acc g.2) 0
    let topList := (sortDesc services).take t.toNat
    .obj [("services", .arr (topList.map (fun s =>
        .obj [("service", .str s.1), ("cost", .num s.2),
          ("percentage", .num (if total > 0 then round1 (qMul (qDiv s.2 total) (mkRat 100 1)) else 0))]))),
      ("total", .num (round2 total)), ("currency", .str "USD"),
      ("period", .str (range.1 ++ " to " ++ range.2))]

/-- One budget record of the `describe_budgets` response. -/
structure BudgetRec where
  name : String
  limit : Rat
  actual : Rat
  forecasted : Rat
  timePeriod : Json

/-- `cost_tools.get_budget_status()`. -/
def getBudgetStatus (oracle : Except String (List BudgetRec)) : Json :=
  match oracle with
  | .error e =>
    .obj [("error", .str e), ("budgets", .arr []), ("currency", .str "USD")]
  | .ok bs =>
    .obj [("budgets", .arr (bs.map (fun b =>
        let percentage : Rat := if b.limit > 0 then qMul (qDiv b.actual b.limit) (mkRat 100 1) else 0
        let status :=
          if percentage ≥ 100 then "exceeded"
          else if percentage ≥ 80 then "warning"
          else if percentage ≥ 60 then "caution"
          else "ok"
        .obj [("name", .str b.name), ("limit", .num (round2 b.limit)),
          ("actual", .num (round2 b.actual)),
          ("forecasted", .num (round2 b.forecasted)),
          ("percentage", .num (round1 percentage)), ("status", .str status),
          ("time_period", b.timePeriod)]))),
      ("currency", .str "USD")]

/-- One `filter_log_events` event. -/
structure LogEvent where
  timestamp : Rat
  message : String

/-- Failure modes of the logs client. -/
inductive LogsErr where
  | notFound : LogsErr
  | other : String → LogsErr

/-- `logging_tools.get_cloudwatch_logs(log_group, hours, filter_pattern,
limit)`. `tsFmt` renders `datetime.fromtimestamp(·).isoformat()` (a
local-timezone-dependent library call). -/
def getCloudwatchLogs (logGroup : String) (hours : Int)
    (filterPattern : Option String) (limit : Int) (tsFmt : Rat → String)
    (oracle : Except LogsErr (List LogEvent)) : Json :=
  let h := clampInt 1 hours 72
  let l := clampInt 1 limit 100
  let _ := filterPattern
  match oracle with
  | .error .notFound =>
    .obj [("error", .str ("Log group not found: " ++ logGroup)),
      ("log_group", .str logGroup), ("entries", .arr []),
      ("entry_count", .num 0), ("truncated", .bool false)]
  | .error (.other e) =>
    .obj [("error", .str e), ("log_group", .str logGroup), ("entries", .arr []),
      ("entry_count", .num 0), ("truncated", .bool false)]
  | .ok evs =>
    let entries := evs.map (fun ev =>
      Json.obj [("timestamp", .str (tsFmt (qDiv ev.timestamp (mkRat 1000 1)) ++ "Z")),
        ("message", .str (strTake ev.message 1000))])
    .obj [("log_group", .str logGroup), ("entries", .arr entries),
      ("entry_count", .num entries.length),
      ("truncated", .bool (entries.length ≥ l)),
      ("period", .str ("Last " ++ toString h ++ " hour(s)"))]

/-- One failed step, as assembled from `list_steps` + `describe_step`. -/
structure EmrStep where
  id : String
  name : String
  state : String
  failureReason : Option String

/-- The `describe_cluster` response fields the connector reads. Timeline
datetimes are modelled as pre-rendered strings. `failedSteps` carries the
outcome of the follow-up `list_steps`/`describe_step` calls, which are
made only for failed clusters. -/
structure EmrInfo where
  name : Option String
  state : String
  changeMessage : Option String
  changeCode : Option String
  applications : List String
  created : String
  ended : Option String
  failedSteps : Except String (List EmrStep)

/-- `compute_tools.get_emr_cluster_status(cluster_id)`. -/
def getEmrClusterStatus (clusterId : Json)
    (oracle : Json → Except String EmrInfo) : Json :=
  match oracle clusterId with
  | .error e => .obj [("error", .str e), ("cluster_id", clusterId)]
  | .ok info =>
    let base : List (String × Json) :=
      [("cluster_id", clusterId), ("name", .str (info.name.getD "Unnamed")),
        ("status", .str info.state),
        ("state_change_reason", .str (info.changeMessage.getD "Unknown")),
        ("state_change_code", .str (info.changeCode.getD "Unknown")),
        ("applications", .arr (info.applications.map Json.str)),
        ("created_at", .str info.created)]
    let base :=
      match info.ended with
      | some t => base ++ [("terminated_at", .str t)]
      | none => base
    if strContains info.state "TERMINATED_WITH_ERRORS" ∨ strContains info.state "FAILED" then
      match info.failedSteps with
      | .error e => .obj [("error", .str e), ("cluster_id", clusterId)]
      | .ok steps =>
        .obj (base ++
          [("failed_steps", .arr (steps.map (fun s =>
            Json.obj [("step_id", .str s.id), ("name", .str s.name),
              ("state", .str s.state),
              ("failure_reason", .str (s.failureReason.getD "Unknown"))]))),
          ("failure_details", .obj
            [("code", .str (info.changeCode.getD "Unknown")),
             ("message", .str (info.changeMessage.getD "Unknown")),
             ("failed_step_count", .num steps.length)])])
    else .obj base

/-- `infrastructure_tools.get_recent_changes(hours)`: the loop body over
CloudTrail events, inside the connector's `try`. A failure anywhere in it
(including a malformed `CloudTrailEvent` JSON payload) aborts the whole
connector into its error map. -/
def processCtEvents : List Json → Except String (List Json)
  | [] => .ok []
  | ev :: rest => do
    let timeV ← pyGet ev "EventTime" (.str "")
    let time := pyStr timeV
    let nameV ← pyGet ev "EventName" (.str "Unknown")
    let userV ← pyGet ev "Username" (.str "Unknown")
    let resourcesV ← pyGet ev "Resources" (.arr [])
    let resourceInfo ←
      if pyTruthy resourcesV then do
        let r0 ← pyIndexZero resourcesV
        pyGet r0 "ResourceName" (.str "N/A")
      else pure (Json.str "N/A")
    let cteV ← pyGet ev "CloudTrailEvent" (.str "\x7b\x7d")
    let cteS ← asStr "TypeError: the JSON object must be str" cteV
    let cte ← jsonLoads cteS
    let sourceIp ← pyGet cte "sourceIPAddress" (.str "Unknown")
    let entry := Json.obj [("time", .str time), ("user", userV),
      ("event_name", nameV), ("resource", resourceInfo), ("source_ip", sourceIp)]
    let restEntries ← processCtEvents rest
    return entry :: restEntries

/-- `infrastructure_tools.get_recent_changes(hours)`. `EventTime`
datetimes are modelled as pre-rendered strings in the oracle's events. -/
def getRecentChanges (hours : Int) (oracle : Except String (List Json)) : Json :=
  let h := clampInt 1 hours 168
  let body : Except String (List Json) :=
    match oracle with
    | .error e => .error e
    | .ok evs => processCtEvents evs
  match body with
  | .error e =>
    .obj [("error", .str e), ("events", .arr []), ("event_count", .num 0)]
  | .ok events =>
    .obj [("events", .arr events), ("event_count", .num events.length),
      ("period", .str ("Last " ++ toString h ++ " hours"))]

/-! ## Workflow state and environment -/

/-- `AlertState` (`alert_workflow.py` lines 27-41): the single record
threaded through the five nodes. -/
structure AlertState where
  raw_event : Json
  alert_type : Option String := none
  alert_metadata : Option Metadata := none
  context : Option Metadata := none
  analysis_result : Option Metadata := none
  slack_message : Option Json := none
  slack_channel : Option String := none
  error : Option String := none

/-- An HTTP response as `requests.post` returns it. -/
structure HttpResp where
  status : Nat
  text : String

/-- The external world: `os.getenv`, the Bedrock LLM, `requests.post`,
the boto3 connectors' responses, and clock renderings. -/
structure Env where
  getenv : String → Option String
  llm : String → Except String String
  http : String → Option Json → Except String HttpResp
  costOracle : Except String (List (String × Rat))
  costRange : Int → String × String
  serviceOracle : Except String (List (String × Rat))
  serviceRange : Int → String × String
  budgetOracle : Except String (List BudgetRec)
  logsOracle : Except LogsErr (List LogEvent)
  emrOracle : Json → Except String EmrInfo
  changesOracle : Except String (List Json)
  tsFmt : Rat → String
  nowIso : String
  nowFmt : String

/-- The initial state `run` builds (lines 551-560). -/
def initState (event : Json) : AlertState :=
  { raw_event := event }

/-- The SNS unwrap at the top of `classify_alert` (lines 107-115). -/
def extractMessage (raw : Json) : Except String Json := do
  let hasRecords ← pyIn "Records" raw
  if hasRecords then
    let records ← pyIndex raw "Records"
    let n ← pyLen records
    if n > 0 then
      let snsRecord ← pyIndexZero records
      let hasSns ← pyIn "Sns" snsRecord
      if hasSns then
        let sns ← pyIndex snsRecord "Sns"
        let bodyV ← pyGet sns "Message" (.str "\x7b\x7d")
        let bodyS ← asStr "TypeError: the JSON object must be str" bodyV
        match jsonLoads bodyS with
        | .ok j => return j
        | .error _ => return .obj [("RawMessage", .str bodyS)]
      else return raw
    else return raw
  else return raw

/-- Node 1, `classify_alert` (lines 94-136): unwrap, classify, gate; a
falsy gate result routes to the passthrough branch, which empties the
context and analysis slots. -/
def classifyAlert (config : Json) (state : AlertState) : Except String AlertState := do
  let message ← extractMessage state.raw_event
  let res ← classifyMessage message
  let shouldV ← shouldAnalyze config res.1 message
  if !pyTruthy shouldV then
    return { state with
      alert_type := some "passthrough"
      alert_metadata := some res.2.1
      slack_channel := some res.2.2
      context := none
      analysis_result := none }
  else
    return { state with
      alert_type := some res.1
      alert_metadata := some res.2.1
      slack_channel := some res.2.2 }

/-- `_extract_function_name`'s regex character class `[a-zA-Z0-9_-]`. -/
def isWordChar (c : Char) : Bool :=
  c.isAlpha || c.isDigit || c = '_' || c = '-'

/-- The alternation `(errors|duration|throttles)` matching at a point. -/
def altMatch (cs : List Char) : Bool :=
  "errors".data.isPrefixOf cs || "duration".data.isPrefixOf cs ||
    "throttles".data.isPrefixOf cs

/-- `[-_]?(errors|duration|throttles)` at a point: the greedy optional
separator is tried first, then backtracked. -/
def sepAlt : List Char → Bool
  | [] => altMatch []
  | c :: rest =>
    if c = '-' || c = '_' then altMatch rest || altMatch (c :: rest)
    else altMatch (c :: rest)

/-- Backtracking of the greedy group `([a-zA-Z0-9_-]+)`: try group
lengths from `k` down to `1`. -/
def tryLens (cs : List Char) : Nat → Option (List Char)
  | 0 => none
  | k + 1 =>
    if sepAlt (cs.drop (k + 1)) then some (cs.take (k + 1)) else tryLens cs k

/-- `re.search(r'([a-zA-Z0-9_-]+)[-_]?(errors|duration|throttles)', s)`,
group 1. Start positions are tried left to right; a failed start inside a
word-character run fails for every start in that run, so the scan may
skip the run whole. Fuel-indexed (fuel `≥ length` suffices). -/
def searchFnAux : Nat → List Char → Option (List Char)
  | 0, _ => none
  | _ + 1, [] => none
  | fuel + 1, c :: rest =>
    if isWordChar c then
      let run := (c :: rest).takeWhile isWordChar
      match tryLens (c :: rest) run.length with
      | some g => some g
      | none => searchFnAux fuel ((c :: rest).dropWhile isWordChar)
    else searchFnAux fuel rest

/-- `AlertAnalyzerWorkflow._extract_function_name(alarm_name)` (lines
312-318): the regex is run on the lowercased name. -/
def extractFunctionName (alarmName : String) : Option String :=
  (searchFnAux (alarmName.data.length + 1) (pyLower alarmName).data).map
    (fun l => (⟨l⟩ : String))

/-- Node 2, `gather_context` (lines 246-310): a dispatch on alert-type
substrings; the whole body sits in one `try`, whose `except` records
`{'error': str(e)}` as the context. The connectors themselves never
raise, so in this model the catch only fires for the `NoneType` /
non-string accesses modelled inside the body. -/
def gatherContext (env : Env) (state : AlertState) : AlertState :=
  if state.alert_type == some "passthrough" then state
  else
    let body : Except String Metadata := do
      let alertTy ← match state.alert_type with
        | some s => pure s
        | none => Except.error "TypeError: argument of type NoneType is not iterable"
      let ctx1 : Metadata ←
        if strContains alertTy "budget" || strContains alertTy "cost" then
          pure [("cost_breakdown", getCostBreakdown 7 env.costRange env.costOracle),
            ("top_services", getServiceCosts 7 5 env.serviceRange env.serviceOracle),
            ("budget_status", getBudgetStatus env.budgetOracle)]
        else pure []
      let ctx2 : Metadata ←
        if strContains alertTy "cloudwatch_alarm" then do
          let md ← match state.alert_metadata with
            | some md => pure md
            | none => Except.error "AttributeError: NoneType object has no attribute get"
          let alarmNameV := (lookupKey md "alarm_name").getD (.str "")
          let an ← asStr "AttributeError: object has no attribute lower" alarmNameV
          if strContains (pyLower an) "lambda" then
            match extractFunctionName an with
            | some fn =>
              if fn.data.isEmpty then pure []
              else
                pure [("logs", getCloudwatchLogs ("/aws/lambda/" ++ fn) 1 none 20
                  env.tsFmt env.logsOracle)]
            | none => pure []
          else pure []
        else pure []
      let ctx3 : Metadata ←
        if strContains alertTy "emr" then do
          let md ← match state.alert_metadata with
            | some md => pure md
            | none => Except.error "AttributeError: NoneType object has no attribute get"
          let clusterId := (lookupKey md "cluster_id").getD .null
          if pyTruthy clusterId then
            pure [("emr_status", getEmrClusterStatus clusterId env.emrOracle)]
          else pure []
        else pure []
      let ctx4 : Metadata := [("recent_changes", getRecentChanges 24 env.changesOracle)]
      return ctx1 ++ ctx2 ++ ctx3 ++ ctx4
    match body with
    | .ok ctx => { state with context := some ctx }
    | .error e => { state with context := some [("error", .str e)] }

/-- `_build_analysis_prompt` (lines 363-383). -/
def buildAnalysisPrompt (alertType : Option String) (metadata : Option Metadata)
    (context : Option Metadata) : String :=
  let atS := match alertType with | some s => s | none => "None"
  let mdJ : Json := match metadata with | some md => .obj md | none => .null
  let ctxJ : Json := match context with | some c => .obj c | none => .null
  "You are an AWS infrastructure expert analyzing an alert.\n\nAlert Type: " ++
    atS ++ "\nAlert Metadata: " ++ jsonDumpsInd 0 mdJ ++
    "\n\nContextual Information:\n" ++ jsonDumpsInd 0 ctxJ ++
    "\n\nPlease provide:\n1. **Root Cause Analysis**: What caused this alert?\n2. **Impact Assessment**: What is the potential impact?\n3. **Diagnostic Commands**: AWS CLI commands to investigate further\n4. **Remediation Steps**: Concrete actions to resolve the issue\n5. **Prevention**: How to prevent this in the future\n\nFormat your response in Markdown with clear sections.\nBe concise but thorough. Focus on actionable insights."

/-- Node 3, `analyze_with_llm` (lines 320-361): skipped on passthrough;
a model failure is absorbed into an error-bearing analysis result. -/
def analyzeWithLlm (env : Env) (state : AlertState) : AlertState :=
  if state.alert_type == some "passthrough" then state
  else
    let prompt := buildAnalysisPrompt state.alert_type state.alert_metadata state.context
    match env.llm prompt with
    | .ok content =>
      { state with
        analysis_result := some [("summary", .str content),
          ("timestamp", .str env.nowIso),
          ("model", .str ((env.getenv "LLM_MODEL_ID").getD "claude-3-5-sonnet"))] }
    | .error e =>
      { state with
        analysis_result := some [("error", .str e),
          ("summary", .str "Failed to analyze alert with AI.")] }

/-! ## Node 4: `format_response` and its helpers -/

/-- `_get_alert_style(alert_type, channel)` (lines 464-471); a `None`
channel compares unequal to `'critical'` without raising. -/
def getAlertStyle (alertType : String) (channel : Option String) : String × String :=
  if (match channel with | some c => c == "critical" | none => false) ||
      strContains alertType "failure" || strContains alertType "critical" then
    (mojiRed, "danger")
  else if strContains alertType "warning" then (mojiYellow, "warning")
  else (mojiBlue, "good")

/-- `_format_alert_details(alert_type, metadata)` (lines 473-480). -/
def formatAlertDetails (alertType : String) (md : Metadata) : String :=
  String.intercalate "\n"
    (("*Type:* `" ++ alertType ++ "`") ::
      md.map (fun kv =>
        "*" ++ pyTitle (strReplace kv.1 "_" " ") ++ ":* `" ++ pyStr kv.2 ++ "`"))

/-- Two-decimal rendering of an integer number of cents. -/
def centsRepr (n : Int) : String :=
  let sign := if n < 0 then "-" else ""
  let m := n.natAbs
  let fracPart := m % 100
  sign ++ toString (m / 100) ++ "." ++
    (if fracPart < 10 then "0" else "") ++ toString fracPart

/-- Python `f'{v:.2f}'`: fixed two-decimal formatting; booleans are ints
in Python; other non-numbers raise. (Python rounds the binary float; this
model rounds the exact rational.) -/
def fmtFixed2 : Json → Except String String
  | .num q => .ok (centsRepr (roundHalfEven (q * 100)))
  | .bool b => .ok (if b then "1.00" else "0.00")
  | _ => .error "ValueError: Unknown format code f"

/-- Python `x[:3]` (list or string slice; `TypeError` otherwise). -/
def pySlice3 : Json → Except String Json
  | .arr xs => .ok (.arr (xs.take 3))
  | .str s => .ok (.str (strTake s 3))
  | _ => .error "TypeError: object is not subscriptable"

/-- The comprehension `[s["service"] for s in services]` followed by
`", ".join(...)`: each element is indexed and must yield a string. -/
def serviceNames : List Json → Except String (List String)
  | [] => .ok []
  | s :: rest => do
    let v ← pyIndex s "service"
    let nm ← asStr "TypeError: sequence item: expected str instance" v
    let tail ← serviceNames rest
    return nm :: tail

/-- `_format_context_summary(context)` (lines 482-500). -/
def formatContextSummary (ctx : Json) : Except String String := do
  let hasCB ← pyIn "cost_breakdown" ctx
  let lines1 : List String ←
    if hasCB then do
      let costData ← pyIndex ctx "cost_breakdown"
      let totalV ← pyGet costData "total" (.num 0)
      let s ← fmtFixed2 totalV
      pure [mojiMoney ++ " Total Cost (7d): $" ++ s]
    else pure []
  let hasTS ← pyIn "top_services" ctx
  let lines2 : List String ←
    if hasTS then do
      let tsData ← pyIndex ctx "top_services"
      let servicesV ← pyGet tsData "services" (.arr [])
      let sliced ← pySlice3 servicesV
      if pyTruthy sliced then do
        let items ← pyIterStrs sliced
        let names ← serviceNames items
        pure [mojiMagnify ++ " Top Services: " ++ String.intercalate ", " names]
      else pure []
    else pure []
  let hasEmr ← pyIn "emr_status" ctx
  let lines3 : List String ←
    if hasEmr then do
      let emr ← pyIndex ctx "emr_status"
      let cid ← pyGet emr "cluster_id" (.str "N/A")
      let st ← pyGet emr "status" (.str "Unknown")
      pure [mojiPackage ++ " EMR Cluster: `" ++ pyStr cid ++ "`",
        "   Status: `" ++ pyStr st ++ "`"]
    else pure []
  let lines := lines1 ++ lines2 ++ lines3
  return (if lines.isEmpty then "No additional context available"
    else String.intercalate "\n" lines)

/-- A Slack Block Kit header block. -/
def mkHeaderBlock (t : String) : Json :=
  .obj [("type", .str "header"),
    ("text", .obj [("type", .str "plain_text"), ("text", .str t)])]

/-- A Slack Block Kit markdown section block. -/
def mkSectionBlock (t : String) : Json :=
  .obj [("type", .str "section"),
    ("text", .obj [("type", .str "mrkdwn"), ("text", .str t)])]

/-- A Slack Block Kit divider block. -/
def dividerBlock : Json := .obj [("type", .str "divider")]

/-- The footer context block. -/
def mkFooterBlock (t : String) : Json :=
  .obj [("type", .str "context"),
    ("elements", .arr [.obj [("type", .str "mrkdwn"), ("text", .str t)]])]

/-- The fixed prefix of the AI-analysis section (source line 432). -/
def aiPrefix : String := "*" ++ mojiRobot ++ " AI Analysis:*\n"

/-- Python `x[:2500]` applied to the analysis summary. -/
def pySlice2500 : Json → Except String Json
  | .str s => .ok (.str (strTake s 2500))
  | .arr xs => .ok (.arr (xs.take 2500))
  | _ => .error "TypeError: object is not subscriptable"

/-- Node 4, `format_response` (lines 385-462): header and details always;
divider + analysis section when a truthy analysis result carries a
`summary`; divider + context section when the context is truthy and the
alert is not a passthrough; a timestamped footer; plus fallback text. -/
def formatResponse (env : Env) (state : AlertState) : Except String AlertState := do
  let alertTy ← match state.alert_type with
    | some s => pure s
    | none => Except.error "TypeError: argument of type NoneType is not iterable"
  let style := getAlertStyle alertTy state.slack_channel
  let headerText := style.1 ++ " AWS Alert: " ++ pyTitle (strReplace alertTy "_" " ")
  let md ← match state.alert_metadata with
    | some md => pure md
    | none => Except.error "AttributeError: NoneType object has no attribute items"
  let detailsText := formatAlertDetails alertTy md
  let analysisBlocks : List Json ←
    match state.analysis_result with
    | some akvs =>
      if !akvs.isEmpty && akvs.any (fun kv => kv.1 == "summary") then do
        let summaryV := (lookupKey akvs "summary").getD .null
        let sliced ← pySlice2500 summaryV
        pure [dividerBlock, mkSectionBlock (aiPrefix ++ pyStr sliced)]
      else pure []
    | none => pure []
  let ctxTruthy := match state.context with
    | some c => !c.isEmpty
    | none => false
  let contextBlocks : List Json ←
    if ctxTruthy && alertTy ≠ "passthrough" then do
      let ctxJ : Json := match state.context with
        | some c => .obj c
        | none => .null
      let summary ← formatContextSummary ctxJ
      pure [dividerBlock,
        mkSectionBlock ("*" ++ mojiChart ++ " Context Data:*\n" ++ summary)]
    else pure []
  let footer := mkFooterBlock
    (mojiClock ++ " " ++ env.nowFmt ++ " UTC | Powered by AWS Alert Intelligence")
  let blocks := [mkHeaderBlock headerText, mkSectionBlock detailsText] ++
    analysisBlocks ++ contextBlocks ++ [footer]
  let fallback := style.1 ++ " " ++ pyTitle (strReplace alertTy "_" " ")
  return { state with
    slack_message := some (.obj [("blocks", .arr blocks), ("text", .str fallback)]) }

/-! ## Node 5: `post_to_slack`, and the Lambda handler -/

/-- Node 5, `post_to_slack` (lines 502-539). Returns the updated state
together with the list of HTTP requests performed (url, JSON body), so
the delivery-attempt count is observable. A missing webhook variable is
recorded as an error without any request; a non-`200` response or a
raised request exception is recorded as an error; exactly one request is
made whenever the endpoint resolves. -/
def postToSlack (env : Env) (state : AlertState) :
    Except String (AlertState × List (String × Option Json)) := do
  let ch ← match state.slack_channel with
    | some c => pure c
    | none => Except.error "AttributeError: NoneType object has no attribute upper"
  let webhookVar := "SLACK_" ++ pyUpper ch ++ "_WEBHOOK"
  match env.getenv webhookVar with
  | none => return ({ state with error := some ("Missing " ++ webhookVar) }, [])
  | some url =>
    match env.http url state.slack_message with
    | .error e => return ({ state with error := some e }, [(url, state.slack_message)])
    | .ok resp =>
      if resp.status ≠ 200 then
        return ({ state with
          error := some ("Slack API error: " ++ toString resp.status) },
          [(url, state.slack_message)])
      else return (state, [(url, state.slack_message)])

/-- `AlertAnalyzerWorkflow.run(event)` (lines 541-564): the five nodes in
their fixed graph order on the initial state. -/
def runWorkflow (env : Env) (config : Json) (event : Json) :
    Except String (AlertState × List (String × Option Json)) := do
  let st1 ← classifyAlert config (initState event)
  let st2 := gatherContext env st1
  let st3 := analyzeWithLlm env st2
  let st4 ← formatResponse env st3
  postToSlack env st4

/-- `index.load_config()` (lines 24-50): parse `CONFIG_JSON` (malformed
input degrades to `{}`), then ensure the `ai_analysis` section exists
with its enabled-by-default contents. -/
def loadConfig (env : Env) : Except String Json := do
  let configJson := (env.getenv "CONFIG_JSON").getD "\x7b\x7d"
  let config := match jsonLoads configJson with
    | .ok j => j
    | .error _ => Json.obj []
  let hasAi ← pyIn "ai_analysis" config
  if !hasAi then
    match config with
    | .obj kvs =>
      return .obj (dictSet kvs "ai_analysis"
        (.obj [("enabled", .bool true), ("rules", .obj []),
          ("blacklist", .arr []), ("whitelist", .arr [])]))
    | _ => Except.error "TypeError: object does not support item assignment"
  else return config

/-- Python `float(s)` on the numeric strings in scope (environment
variables); `ValueError` on anything the JSON number grammar rejects. -/
def pyFloatParse (s : String) : Except String Rat :=
  let cs := (s.data.dropWhile isJsonWs).reverse.dropWhile isJsonWs |>.reverse
  match parseNumber cs with
  | .ok (q, rest) =>
    if rest.isEmpty then .ok q
    else .error "ValueError: could not convert string to float"
  | .error _ => .error "ValueError: could not convert string to float"

/-- Python `int(s)`: optional sign and digits only. -/
def pyIntParse (s : String) : Except String Int :=
  let cs := (s.data.dropWhile isJsonWs).reverse.dropWhile isJsonWs |>.reverse
  let (sign, cs1) : Int × List Char :=
    match cs with
    | '-' :: rest => (-1, rest)
    | '+' :: rest => (1, rest)
    | _ => (1, cs)
  if cs1.isEmpty || !cs1.all Char.isDigit then
    .error "ValueError: invalid literal for int"
  else .ok (sign * (digitsToNat cs1 : Int))

/-- `_initialize_llm` (lines 58-71): the deployment-time model settings
are read and parsed; an unparsable number raises out of the constructor.
The Bedrock client construction itself is a connection-pool boundary and
is not modelled. -/
def initializeLlm (env : Env) : Except String Unit := do
  let _modelId := (env.getenv "LLM_MODEL_ID").getD
    "anthropic.claude-3-5-sonnet-20250514-v2:0"
  let _temp ← pyFloatParse ((env.getenv "LLM_TEMPERATURE").getD "0.3")
  let _maxTokens ← pyIntParse ((env.getenv "LLM_MAX_TOKENS").getD "2000")
  let _region := (env.getenv "AWS_DEFAULT_REGION").getD "us-east-1"
  return ()

/-- Option-to-JSON for the success body (`result.get(...)`). -/
def optStrJson : Option String → Json
  | some s => .str s
  | none => .null

/-- `index.lambda_handler(event, context)` (lines 53-111): returns
`(statusCode, body)`. A recorded workflow error yields 500 with
`'Failed to process alert'`; an unhandled exception yields 500 with
`'Internal error processing alert'`; otherwise 200. -/
def lambdaHandler (env : Env) (event : Json) : Nat × String :=
  let run : Except String (AlertState × List (String × Option Json)) := do
    let config ← loadConfig env
    let _ ← initializeLlm env
    runWorkflow env config event
  match run with
  | .error e =>
    (500, jsonDumps (.obj [("error", .str e),
      ("message", .str "Internal error processing alert")]))
  | .ok (st, _) =>
    match st.error with
    | some err =>
      (500, jsonDumps (.obj [("error", .str err),
        ("message", .str "Failed to process alert")]))
    | none =>
      (200, jsonDumps (.obj [("alert_type", optStrJson st.alert_type),
        ("channel", optStrJson st.slack_channel),
        ("message", .str "Alert processed successfully")]))

/-! ## Sample environments and states (used to instantiate theorems at
concrete inputs) -/

/-- A minimal environment: no environment variables, failing model, a
`200` delivery endpoint, trivial connector responses. -/
def sampleEnv : Env where
  getenv := fun _ => none
  llm := fun _ => .error "model unavailable"
  http := fun _ _ => .ok ⟨200, "ok"⟩
  costOracle := .error "Cost Explorer unavailable"
  costRange := fun _ => ("2026-10-05", "2026-10-12")
  serviceOracle := .ok [("Amazon EC2", mkRat 253 10), ("AWS Lambda", mkRat 102 10)]
  serviceRange := fun _ => ("2026-10-05", "2026-10-12")
  budgetOracle := .ok []
  logsOracle := .ok []
  emrOracle := fun _ => .error "EMR unavailable"
  changesOracle := .ok []
  tsFmt := fun _ => "2026-10-12T00:00:00"
  nowIso := "2026-10-12T00:00:00"
  nowFmt := "2026-10-12 00:00:00"

/-- An environment whose `critical` webhook resolves and whose endpoint
answers `201 Created` (a 2xx status that is not 200). -/
def sampleEnv201 : Env :=
  { sampleEnv with
    getenv := fun v => if v = "SLACK_CRITICAL_WEBHOOK" then some "https://hook" else none
    http := fun _ _ => .ok ⟨201, "created"⟩ }

/-- A formatted state ready for dispatch on the `critical` channel. -/
def sampleDispatchState : AlertState :=
  { raw_event := .obj []
    alert_type := some "cloudwatch_alarm_error"
    alert_metadata := some []
    slack_message := some (.str "m")
    slack_channel := some "critical" }

/-- A classified budget state ready for context gathering. -/
def sampleBudgetState : AlertState :=
  { raw_event := .obj []
    alert_type := some "budget_critical"
    alert_metadata := some [("threshold", .num 100)]
    slack_channel := some "critical" }

/-- A 2501-character analysis summary. -/
def longSummary : String := ⟨List.replicate 2501 'a'⟩

/-- A state carrying an over-long analysis summary, about to be
formatted. -/
def sampleAnalyzedState : AlertState :=
  { raw_event := .obj []
    alert_type := some "cloudwatch_alarm_error"
    alert_metadata := some [("alarm_name", .str "API-ERROR-Alarm")]
    analysis_result := some [("summary", .str longSummary),
      ("timestamp", .str "2026-10-12T00:00:00"), ("model", .str "claude-3-5-sonnet")]
    slack_channel := some "critical" }

/-! ## Helper lemmas -/

theorem exbind_ok {α β ε : Type} (a : α) (f : α → Except ε β) :
    (Except.ok a >>= f) = f a := rfl

theorem exbind_err {α β ε : Type} (e : ε) (f : α → Except ε β) :
    ((Except.error e : Except ε α) >>= f) = .error e := rfl

theorem expure_eq {α ε : Type} (a : α) : (pure a : Except ε α) = .ok a := rfl

/-- Inversion of a successful `Except` bind. -/
theorem bindOk {α β ε : Type} {x : Except ε α} {f : α → Except ε β} {b : β} :
    (x >>= f) = .ok b ↔ ∃ a, x = .ok a ∧ f a = .ok b := by
  cases x with
  | ok a => simp [exbind_ok]
  | error e => simp [exbind_err]

/-- A present key is seen by Python's `key in dict`. -/
theorem lookup_any {kvs : List (String × Json)} {k : String} {v : Json}
    (h : lookupKey kvs k = some v) :
    kvs.any (fun kv => kv.1 == k) = true := by
  induction kvs with
  | nil => simp [lookupKey] at h
  | cons p rest ih =>
    obtain ⟨pk, pv⟩ := p
    simp only [lookupKey] at h
    by_cases hk : pk == k
    · simp [List.any, hk]
    · simp only [if_neg hk] at h
      simp [List.any, hk, ih h]

/-- An absent key is missed by Python's `key in dict`. -/
theorem lookup_none_any {kvs : List (String × Json)} {k : String}
    (h : lookupKey kvs k = none) :
    kvs.any (fun kv => kv.1 == k) = false := by
  induction kvs with
  | nil => simp [List.any]
  | cons p rest ih =>
    obtain ⟨pk, pv⟩ := p
    simp only [lookupKey] at h
    by_cases hk : pk == k
    · simp [hk] at h
    · simp only [if_neg hk] at h
      simp [List.any, hk, ih h]

/-- The allow/deny scan over a list of string patterns is the `any` of
the substring tests. -/
theorem firstPatternMatch_strs (hay : String) (pats : List String) :
    firstPatternMatch hay (pats.map Json.str) =
      .ok (pats.any (fun p => strContains hay p)) := by
  induction pats with
  | nil => simp [firstPatternMatch]
  | cons p rest ih =>
    simp only [List.map, firstPatternMatch, List.any]
    cases h : strContains hay p with
    | true => simp [h]
    | false => simp [h, ih]

/-- C1: for every message whose alarm identifier contains a budget marker
and a monthly qualifier and whose state is triggered (`NewStateValue =
'ALARM'`), classification extracts the threshold as the first integer
immediately followed by `%` in the identifier (`extractThreshold`, 0 if
absent) and yields `('budget_critical', critical)` when the threshold is
at least 100, and `('budget_warning', heartbeat)` when it lies in
`[80, 100)`. -/
theorem classify_budget_monthly_thresholds
    (kvs : List (String × Json)) (name : String)
    (hAN : lookupKey kvs "AlarmName" = some (.str name))
    (hB : strContains name "Budget" = true)
    (hM : strContains name "Monthly" = true)
    (hS : lookupKey kvs "NewStateValue" = some (.str "ALARM")) :
    (100 ≤ extractThreshold name →
      classifyMessage (.obj kvs) =
        .ok ("budget_critical", [("threshold", .num (extractThreshold name))], "critical")) ∧
    (80 ≤ extractThreshold name → extractThreshold name < 100 →
      classifyMessage (.obj kvs) =
        .ok ("budget_warning", [("threshold", .num (extractThreshold name))], "heartbeat")) := by
  have hany := lookup_any hAN
  constructor
  · intro h100
    simp [classifyMessage, ruleBudget, pyIn, pyGet, pyIndex, extractThresholdJ,
      asStr, jsonEqStr, hany, hAN, hB, hM, hS, h100, expure_eq, exbind_ok]
  · intro h80 hlt
    have hn100 : ¬(100 ≤ extractThreshold name) := by omega
    simp [classifyMessage, ruleBudget, pyIn, pyGet, pyIndex, extractThresholdJ,
      asStr, jsonEqStr, hany, hAN, hB, hM, hS, h80, hn100, expure_eq, exbind_ok]

/-- C2 counterexample: a monthly-budget alarm in triggered state with
threshold 50 does NOT classify as `custom_event` — it is caught by the
generic CloudWatch-alarm rule and yields `cloudwatch_alarm_warning`. -/
theorem classify_monthly_low_threshold_cex :
    classifyMessage (.obj [("AlarmName", .str "MonthlyBudget-50%-Alarm"),
        ("NewStateValue", .str "ALARM")]) =
      .ok ("cloudwatch_alarm_warning",
        [("alarm_name", .str "MonthlyBudget-50%-Alarm"), ("state", .str "ALARM"),
          ("reason", .str "")], "heartbeat") ∧
    ("cloudwatch_alarm_warning" : String) ≠ "custom_event" :=
  ⟨rfl, by decide⟩

/-- C2 amended: a monthly-budget alarm in triggered state with extracted
threshold below 80 falls through to the generic metric-alarm rule (the
message still has an alarm identifier and a new-state field), yielding
`cloudwatch_alarm_error`/critical when the uppercased identifier contains
`ERROR` or `CRITICAL` and `cloudwatch_alarm_warning`/heartbeat otherwise —
not to the `custom_event` default. -/
theorem classify_monthly_low_threshold_amended
    (kvs : List (String × Json)) (name : String)
    (hAN : lookupKey kvs "AlarmName" = some (.str name))
    (hB : strContains name "Budget" = true)
    (hM : strContains name "Monthly" = true)
    (hS : lookupKey kvs "NewStateValue" = some (.str "ALARM"))
    (hT : extractThreshold name < 80)
    (hD : strContains name "DailyCostReport" = false) :
    classifyMessage (.obj kvs) = .ok
      (if strContains (pyUpper name) "ERROR" || strContains (pyUpper name) "CRITICAL" then
        ("cloudwatch_alarm_error",
          [("alarm_name", .str name), ("state", .str "ALARM"),
            ("reason", (lookupKey kvs "NewStateReason").getD (.str ""))], "critical")
      else
        ("cloudwatch_alarm_warning",
          [("alarm_name", .str name), ("state", .str "ALARM"),
            ("reason", (lookupKey kvs "NewStateReason").getD (.str ""))], "heartbeat")) := by
  have hany := lookup_any hAN
  have hanyS := lookup_any hS
  have hn100 : ¬(100 ≤ extractThreshold name) := by omega
  have hn80 : ¬(80 ≤ extractThreshold name) := by omega
  cases hc : (strContains (pyUpper name) "ERROR" || strContains (pyUpper name) "CRITICAL") with
  | true =>
    rw [Bool.or_eq_true] at hc
    simp [classifyMessage, ruleBudget, ruleDailyCost, ruleCloudwatch, pyIn, pyGet,
      pyIndex, extractThresholdJ, asStr, jsonEqStr, hany, hanyS, hAN, hB, hM, hS,
      hn100, hn80, hD, expure_eq, exbind_ok]
    rcases hc with h | h <;> simp [h, exbind_ok, expure_eq]
  | false =>
    rw [Bool.or_eq_false_iff] at hc
    simp [classifyMessage, ruleBudget, ruleDailyCost, ruleCloudwatch, pyIn, pyGet,
      pyIndex, extractThresholdJ, asStr, jsonEqStr, hany, hanyS, hAN, hB, hM, hS,
      hn100, hn80, hD, hc.1, hc.2, expure_eq, exbind_ok]

/-- C3: for every well-typed gate configuration, alert type and message:
`should_analyze` returns false when the global switch is off; otherwise an
allow-list substring match of the serialized message forces true
regardless of the deny list and rule table; otherwise a deny-list match
forces false regardless of the rule table; otherwise the result is the
value keyed `analyze_<alert_type>` in the rule table, false when absent. -/
theorem gate_precedence
    (ckvs akvs rkvs : List (String × Json)) (wpats bpats : List String) (eb : Bool)
    (alertType : String) (message : Json)
    (hAi : lookupKey ckvs "ai_analysis" = some (.obj akvs))
    (hEn : lookupKey akvs "enabled" = some (.bool eb) ∨
      (lookupKey akvs "enabled" = none ∧ eb = true))
    (hWl : lookupKey akvs "whitelist" = some (.arr (wpats.map Json.str)) ∨
      (lookupKey akvs "whitelist" = none ∧ wpats = []))
    (hBl : lookupKey akvs "blacklist" = some (.arr (bpats.map Json.str)) ∨
      (lookupKey akvs "blacklist" = none ∧ bpats = []))
    (hRu : lookupKey akvs "rules" = some (.obj rkvs) ∨
      (lookupKey akvs "rules" = none ∧ rkvs = [])) :
    (eb = false →
      shouldAnalyze (.obj ckvs) alertType message = .ok (.bool false)) ∧
    (eb = true →
      wpats.any (fun p => strContains (jsonDumps message) p) = true →
      shouldAnalyze (.obj ckvs) alertType message = .ok (.bool true)) ∧
    (eb = true →
      wpats.any (fun p => strContains (jsonDumps message) p) = false →
      bpats.any (fun p => strContains (jsonDumps message) p) = true →
      shouldAnalyze (.obj ckvs) alertType message = .ok (.bool false)) ∧
    (eb = true →
      wpats.any (fun p => strContains (jsonDumps message) p) = false →
      bpats.any (fun p => strContains (jsonDumps message) p) = false →
      shouldAnalyze (.obj ckvs) alertType message =
        .ok ((lookupKey rkvs ("analyze_" ++ alertType)).getD (.bool false))) := by
  have hEn' : (lookupKey akvs "enabled").getD (.bool true) = .bool eb := by
    rcases hEn with h | ⟨h, he⟩
    · simp [h]
    · simp [h, he]
  have hWl' : (lookupKey akvs "whitelist").getD (.arr []) = .arr (wpats.map Json.str) := by
    rcases hWl with h | ⟨h, he⟩
    · simp [h]
    · simp [h, he]
  have hBl' : (lookupKey akvs "blacklist").getD (.arr []) = .arr (bpats.map Json.str) := by
    rcases hBl with h | ⟨h, he⟩
    · simp [h]
    · simp [h, he]
  have hRu' : (lookupKey akvs "rules").getD (.obj []) = .obj rkvs := by
    rcases hRu with h | ⟨h, he⟩
    · simp [h]
    · simp [h, he]
  refine ⟨?_, ?_, ?_, ?_⟩
  · intro he
    subst he
    simp [shouldAnalyze, pyGet, hAi, hEn', pyTruthy, exbind_ok, expure_eq]
  · intro he hw
    subst he
    simp [shouldAnalyze, pyGet, pyIterStrs, hAi, hEn', hWl', pyTruthy,
      firstPatternMatch_strs, hw, exbind_ok, expure_eq]
  · intro he hw hb
    subst he
    simp [shouldAnalyze, pyGet, pyIterStrs, hAi, hEn', hWl', hBl', pyTruthy,
      firstPatternMatch_strs, hw, hb, exbind_ok, expure_eq]
  · intro he hw hb
    subst he
    simp [shouldAnalyze, pyGet, pyIterStrs, hAi, hEn', hWl', hBl', hRu', pyTruthy,
      firstPatternMatch_strs, hw, hb, exbind_ok, expure_eq]

/-- C10 counterexample: `enabled = 0` (which is not the boolean `false`)
also disables analysis globally — even an allow-list pattern that matches
everything cannot re-enable it. -/
theorem gate_enabled_falsy_cex :
    shouldAnalyze (.obj [("ai_analysis", .obj [("enabled", .num 0),
        ("whitelist", .arr [.str ""]),
        ("rules", .obj [("analyze_custom_event", .bool true)])])])
      "custom_event" (.obj []) = .ok (.bool false) ∧
    Json.num 0 ≠ Json.bool false :=
  ⟨rfl, fun h => Json.noConfusion h⟩

/-- C10 amended: when the `ai_analysis` section omits the `enabled` key
the gate behaves exactly as if `enabled` were an explicit `true` (the
default is on, so analysis can still run via allow list, deny list and
rule table); however any falsy configured value — not only an explicit
`false` — disables analysis globally. -/
theorem gate_enabled_default_amended
    (ckvs akvs : List (String × Json)) (alertType : String) (message : Json)
    (hAi : lookupKey ckvs "ai_analysis" = some (.obj akvs)) :
    (lookupKey akvs "enabled" = none →
      shouldAnalyze (.obj ckvs) alertType message =
        shouldAnalyze (.obj [("ai_analysis", .obj (("enabled", .bool true) :: akvs))])
          alertType message) ∧
    (∀ v, lookupKey akvs "enabled" = some v → pyTruthy v = false →
      shouldAnalyze (.obj ckvs) alertType message = .ok (.bool false)) := by
  constructor
  · intro hNone
    simp only [shouldAnalyze, pyGet, hAi, exbind_ok, expure_eq]
    simp [lookupKey, hNone, pyTruthy]
  · intro v hv htr
    simp [shouldAnalyze, pyGet, hAi, hv, htr, exbind_ok, expure_eq]

set_option maxHeartbeats 1000000 in
theorem ruleBudget_inv {m : Json} {o : Option ClassifyRes}
    (h : ruleBudget m = .ok o) :
    o = none ∨ (∃ md, o = some ("budget_critical", md, "critical")) ∨
      (∃ md, o = some ("budget_warning", md, "heartbeat")) ∨
      o = some ("daily_budget_exceeded", [], "heartbeat") := by
  simp only [ruleBudget, extractThresholdJ, asStr, Bind.bind, Except.bind,
    pure, Except.pure] at h
  repeat' split at h
  all_goals first
  | (cases h; exact Or.inr (Or.inl ⟨_, rfl⟩))
  | (cases h; exact Or.inr (Or.inr (Or.inl ⟨_, rfl⟩)))
  | (cases h; simp)
  | simp_all

set_option maxHeartbeats 1000000 in
theorem ruleDailyCost_inv {m : Json} {o : Option ClassifyRes}
    (h : ruleDailyCost m = .ok o) :
    o = none ∨ o = some ("daily_cost_report", [], "heartbeat") := by
  simp only [ruleDailyCost, Bind.bind, Except.bind, pure, Except.pure] at h
  repeat' split at h
  all_goals simp_all

set_option maxHeartbeats 1000000 in
theorem ruleCloudwatch_inv {m : Json} {o : Option ClassifyRes}
    (h : ruleCloudwatch m = .ok o) :
    o = none ∨ (∃ md, o = some ("cloudwatch_alarm_error", md, "critical")) ∨
      (∃ md, o = some ("cloudwatch_alarm_warning", md, "heartbeat")) := by
  simp only [ruleCloudwatch, asStr, Bind.bind, Except.bind, pure, Except.pure] at h
  repeat' split at h
  all_goals first
  | (cases h; exact Or.inr (Or.inl ⟨_, rfl⟩))
  | (cases h; exact Or.inr (Or.inr ⟨_, rfl⟩))
  | (cases h; simp)
  | simp_all

set_option maxHeartbeats 1000000 in
theorem ruleEmr_inv {m : Json} {o : Option ClassifyRes}
    (h : ruleEmr m = .ok o) :
    o = none ∨ (∃ md, o = some ("emr_cluster_failure", md, "critical")) ∨
      (∃ md, o = some ("emr_step_failure", md, "critical")) := by
  simp only [ruleEmr, Bind.bind, Except.bind, pure, Except.pure] at h
  repeat' split at h
  all_goals first
  | (cases h; exact Or.inr (Or.inl ⟨_, rfl⟩))
  | (cases h; exact Or.inr (Or.inr ⟨_, rfl⟩))
  | (cases h; simp)
  | simp_all

/-- What `_classify_message` can return: the type/channel pairs of the
five rules plus the default. -/
theorem classifyMessage_ok_inv {m : Json} {r : ClassifyRes}
    (h : classifyMessage m = .ok r) :
    (r.1, r.2.2) ∈ [("budget_critical", "critical"), ("budget_warning", "heartbeat"),
      ("daily_budget_exceeded", "heartbeat"), ("daily_cost_report", "heartbeat"),
      ("cloudwatch_alarm_error", "critical"), ("cloudwatch_alarm_warning", "heartbeat"),
      ("emr_cluster_failure", "critical"), ("emr_step_failure", "critical"),
      ("custom_event", "heartbeat")] := by
  unfold classifyMessage at h
  rcases bindOk.mp h with ⟨r1, h1, h⟩
  rcases ruleBudget_inv h1 with h1' | ⟨md, h1'⟩ | ⟨md, h1'⟩ | h1' <;> subst h1'
  case inl =>
    rcases bindOk.mp h with ⟨r2, h2, h⟩
    rcases ruleDailyCost_inv h2 with h2' | h2' <;> subst h2'
    case inl =>
      rcases bindOk.mp h with ⟨r3, h3, h⟩
      rcases ruleCloudwatch_inv h3 with h3' | ⟨md, h3'⟩ | ⟨md, h3'⟩ <;> subst h3'
      case inl =>
        rcases bindOk.mp h with ⟨r4, h4, h⟩
        rcases ruleEmr_inv h4 with h4' | ⟨md, h4'⟩ | ⟨md, h4'⟩ <;> subst h4' <;>
          (cases h; simp)
      all_goals (cases h; simp)
    case inr => cases h; simp
  all_goals (cases h; simp)

set_option maxHeartbeats 1000000 in
theorem ruleBudget_total (kvs : List (String × Json))
    (hA : ∀ v, lookupKey kvs "AlarmName" = some v → ∃ s, v = .str s) :
    ∃ o, ruleBudget (.obj kvs) = .ok o := by
  cases hA0 : lookupKey kvs "AlarmName" with
  | none =>
    exact ⟨none, by simp [ruleBudget, pyIn, lookup_none_any hA0, exbind_ok, expure_eq]⟩
  | some v =>
    obtain ⟨s, rfl⟩ := hA v hA0
    simp only [ruleBudget, extractThresholdJ, asStr, pyIn, pyGet, pyIndex,
      lookup_any hA0, hA0, exbind_ok, expure_eq, Option.getD_some]
    repeat' first
    | exact ⟨_, rfl⟩
    | split

set_option maxHeartbeats 1000000 in
theorem ruleDailyCost_total (kvs : List (String × Json))
    (hA : ∀ v, lookupKey kvs "AlarmName" = some v → ∃ s, v = .str s) :
    ∃ o, ruleDailyCost (.obj kvs) = .ok o := by
  cases hA0 : lookupKey kvs "AlarmName" with
  | none =>
    exact ⟨none, by simp [ruleDailyCost, pyIn, lookup_none_any hA0, exbind_ok, expure_eq]⟩
  | some v =>
    obtain ⟨s, rfl⟩ := hA v hA0
    simp only [ruleDailyCost, pyIn, pyGet, lookup_any hA0, hA0,
      exbind_ok, expure_eq, Option.getD_some]
    repeat' first
    | exact ⟨_, rfl⟩
    | split

set_option maxHeartbeats 1000000 in
theorem ruleCloudwatch_total (kvs : List (String × Json))
    (hA : ∀ v, lookupKey kvs "AlarmName" = some v → ∃ s, v = .str s) :
    ∃ o, ruleCloudwatch (.obj kvs) = .ok o := by
  cases hA0 : lookupKey kvs "AlarmName" with
  | none =>
    exact ⟨none, by simp [ruleCloudwatch, pyIn, lookup_none_any hA0, exbind_ok, expure_eq]⟩
  | some v =>
    obtain ⟨s, rfl⟩ := hA v hA0
    cases hS0 : lookupKey kvs "NewStateValue" with
    | none =>
      exact ⟨none, by simp [ruleCloudwatch, pyIn, lookup_any hA0,
        lookup_none_any hS0, exbind_ok, expure_eq]⟩
    | some w =>
      simp only [ruleCloudwatch, asStr, pyIn, pyGet, pyIndex, lookup_any hA0,
        lookup_any hS0, hA0, hS0, exbind_ok, expure_eq, Option.getD_some]
      repeat' first
      | exact ⟨_, rfl⟩
      | split

set_option maxHeartbeats 1000000 in
theorem ruleEmr_total (kvs : List (String × Json))
    (hD : ∀ v, lookupKey kvs "detail-type" = some v → ∃ s, v = .str s)
    (hDet : ∀ v, lookupKey kvs "detail" = some v → ∃ dkvs, v = .obj dkvs ∧
      ∀ w, lookupKey dkvs "state" = some w → ∃ s, w = .str s) :
    ∃ o, ruleEmr (.obj kvs) = .ok o := by
  cases hD0 : lookupKey kvs "detail-type" with
  | none =>
    exact ⟨none, by simp [ruleEmr, pyIn, lookup_none_any hD0, exbind_ok, expure_eq]⟩
  | some v =>
    obtain ⟨s, rfl⟩ := hD v hD0
    cases hDt0 : lookupKey kvs "detail" with
    | none =>
      simp only [ruleEmr, pyIn, pyGet, pyIndex, lookup_any hD0, hD0, hDt0,
        exbind_ok, expure_eq, Option.getD_some, Option.getD_none, lookupKey]
      repeat' first
      | exact ⟨_, rfl⟩
      | split
    | some dv =>
      obtain ⟨dkvs, rfl, hSt⟩ := hDet dv hDt0
      cases hSt0 : lookupKey dkvs "state" with
      | none =>
        simp only [ruleEmr, pyIn, pyGet, pyIndex, lookup_any hD0, hD0, hDt0, hSt0,
          exbind_ok, expure_eq, Option.getD_some, Option.getD_none]
        repeat' first
        | exact ⟨_, rfl⟩
        | split
      | some w =>
        obtain ⟨ws, rfl⟩ := hSt w hSt0
        simp only [ruleEmr, pyIn, pyGet, pyIndex, lookup_any hD0, hD0, hDt0, hSt0,
          exbind_ok, expure_eq, Option.getD_some, Option.getD_none]
        repeat' first
        | exact ⟨_, rfl⟩
        | split

/-- Classification succeeds on any dict whose relevant fields are
well-typed. -/
theorem classify_total (kvs : List (String × Json))
    (hA : ∀ v, lookupKey kvs "AlarmName" = some v → ∃ s, v = .str s)
    (hD : ∀ v, lookupKey kvs "detail-type" = some v → ∃ s, v = .str s)
    (hDet : ∀ v, lookupKey kvs "detail" = some v → ∃ dkvs, v = .obj dkvs ∧
      ∀ w, lookupKey dkvs "state" = some w → ∃ s, w = .str s) :
    ∃ r, classifyMessage (.obj kvs) = .ok r := by
  obtain ⟨o1, h1⟩ := ruleBudget_total kvs hA
  cases o1 with
  | some r => exact ⟨r, by simp [classifyMessage, h1, exbind_ok, expure_eq]⟩
  | none =>
    obtain ⟨o2, h2⟩ := ruleDailyCost_total kvs hA
    cases o2 with
    | some r => exact ⟨r, by simp [classifyMessage, h1, h2, exbind_ok, expure_eq]⟩
    | none =>
      obtain ⟨o3, h3⟩ := ruleCloudwatch_total kvs hA
      cases o3 with
      | some r => exact ⟨r, by simp [classifyMessage, h1, h2, h3, exbind_ok, expure_eq]⟩
      | none =>
        obtain ⟨o4, h4⟩ := ruleEmr_total kvs hD hDet
        cases o4 with
        | some r =>
          exact ⟨r, by simp [classifyMessage, h1, h2, h3, h4, exbind_ok, expure_eq]⟩
        | none =>
          exact ⟨("custom_event", [], "heartbeat"),
            by simp [classifyMessage, h1, h2, h3, h4, exbind_ok, expure_eq]⟩

/-- C8 amended: for every input map whose present `AlarmName` and
`detail-type` values are strings and whose present `detail` value is a
map with a string `state` value, classification returns without raising;
its `alert_type` is non-empty and its channel is one of exactly
`critical` and `heartbeat`; unrecognized input (e.g. the empty map)
classifies to the default `('custom_event', 'heartbeat')`. -/
theorem classify_welltyped_invariants (kvs : List (String × Json))
    (hA : ∀ v, lookupKey kvs "AlarmName" = some v → ∃ s, v = .str s)
    (hD : ∀ v, lookupKey kvs "detail-type" = some v → ∃ s, v = .str s)
    (hDet : ∀ v, lookupKey kvs "detail" = some v → ∃ dkvs, v = .obj dkvs ∧
      ∀ w, lookupKey dkvs "state" = some w → ∃ s, w = .str s) :
    (∃ t md ch, classifyMessage (.obj kvs) = .ok (t, md, ch) ∧ t ≠ "" ∧
      (ch = "critical" ∨ ch = "heartbeat")) ∧
    classifyMessage (.obj []) = .ok ("custom_event", [], "heartbeat") := by
  refine ⟨?_, rfl⟩
  obtain ⟨r, hr⟩ := classify_total kvs hA hD hDet
  have hm := classifyMessage_ok_inv hr
  refine ⟨r.1, r.2.1, r.2.2, hr, ?_, ?_⟩
  · simp only [List.mem_cons, List.not_mem_nil, or_false, Prod.mk.injEq] at hm
    rcases hm with ⟨h1, _⟩ | ⟨h1, _⟩ | ⟨h1, _⟩ | ⟨h1, _⟩ | ⟨h1, _⟩ | ⟨h1, _⟩ |
      ⟨h1, _⟩ | ⟨h1, _⟩ | ⟨h1, _⟩ <;> simp [h1]
  · simp only [List.mem_cons, List.not_mem_nil, or_false, Prod.mk.injEq] at hm
    rcases hm with ⟨_, h2⟩ | ⟨_, h2⟩ | ⟨_, h2⟩ | ⟨_, h2⟩ | ⟨_, h2⟩ | ⟨_, h2⟩ |
      ⟨_, h2⟩ | ⟨_, h2⟩ | ⟨_, h2⟩ <;> simp [h2]

/-- C8 counterexample: a map whose `AlarmName` is the number `123` makes
classification raise (`'Budget' in 123` is a `TypeError`), so "any map,
including one missing any expected field" is too strong. -/
theorem classify_nonstring_raises_cex :
    classifyMessage (.obj [("AlarmName", .num 123)]) =
      .error "TypeError: argument of type is not iterable" ∧
    ∀ r, classifyMessage (.obj [("AlarmName", .num 123)]) ≠ .ok r :=
  ⟨rfl, fun _ h => Except.noConfusion (rfl.trans h)⟩

theorem classify_budget_monthly_thresholds_witness :
    classifyMessage (.obj [("AlarmName", .str "MonthlyBudget-100%-Alarm"),
        ("NewStateValue", .str "ALARM")]) =
      .ok ("budget_critical", [("threshold", .num 100)], "critical") :=
  (classify_budget_monthly_thresholds
    [("AlarmName", .str "MonthlyBudget-100%-Alarm"), ("NewStateValue", .str "ALARM")]
    "MonthlyBudget-100%-Alarm" rfl rfl rfl rfl).1 (by decide)

theorem classify_monthly_low_threshold_amended_witness :
    classifyMessage (.obj [("AlarmName", .str "MonthlyBudget-50%-Alarm"),
        ("NewStateValue", .str "ALARM")]) =
      .ok ("cloudwatch_alarm_warning",
        [("alarm_name", .str "MonthlyBudget-50%-Alarm"), ("state", .str "ALARM"),
          ("reason", .str "")], "heartbeat") :=
  classify_monthly_low_threshold_amended
    [("AlarmName", .str "MonthlyBudget-50%-Alarm"), ("NewStateValue", .str "ALARM")]
    "MonthlyBudget-50%-Alarm" rfl rfl rfl rfl (by decide) rfl

theorem gate_precedence_witness :
    shouldAnalyze (.obj [("ai_analysis", .obj [("enabled", .bool true),
        ("whitelist", .arr [.str "urgent-db"]), ("blacklist", .arr [.str "urgent"]),
        ("rules", .obj [])])])
      "custom_event" (.obj [("AlarmName", .str "urgent-db-cluster")]) =
      .ok (.bool true) :=
  (gate_precedence
    [("ai_analysis", .obj [("enabled", .bool true),
      ("whitelist", .arr [.str "urgent-db"]), ("blacklist", .arr [.str "urgent"]),
      ("rules", .obj [])])]
    [("enabled", .bool true), ("whitelist", .arr [.str "urgent-db"]),
      ("blacklist", .arr [.str "urgent"]), ("rules", .obj [])]
    [] ["urgent-db"] ["urgent"] true "custom_event"
    (.obj [("AlarmName", .str "urgent-db-cluster")])
    rfl (Or.inl rfl) (Or.inl rfl) (Or.inl rfl) (Or.inl rfl)).2.1 rfl (by decide)

theorem classify_welltyped_invariants_witness :
    (∃ t md ch,
      classifyMessage (.obj [("AlarmName", .str "API-ERROR-Alarm"),
          ("NewStateValue", .str "ALARM")]) = .ok (t, md, ch) ∧ t ≠ "" ∧
        (ch = "critical" ∨ ch = "heartbeat")) ∧
    classifyMessage (.obj []) = .ok ("custom_event", [], "heartbeat") :=
  classify_welltyped_invariants
    [("AlarmName", .str "API-ERROR-Alarm"), ("NewStateValue", .str "ALARM")]
    (by intro v h; simp [lookupKey] at h; exact ⟨_, h.symm⟩)
    (by intro v h; simp [lookupKey] at h)
    (by intro v h; simp [lookupKey] at h)

theorem gate_enabled_default_witness :
    (shouldAnalyze (.obj [("ai_analysis",
        .obj [("rules", .obj [("analyze_custom_event", .bool true)])])])
      "custom_event" (.obj []) =
     shouldAnalyze (.obj [("ai_analysis",
        .obj (("enabled", .bool true) ::
          [("rules", .obj [("analyze_custom_event", .bool true)])]))])
      "custom_event" (.obj [])) ∧
    shouldAnalyze (.obj [("ai_analysis",
        .obj [("rules", .obj [("analyze_custom_event", .bool true)])])])
      "custom_event" (.obj []) = .ok (.bool true) :=
  ⟨(gate_enabled_default_amended
      [("ai_analysis", .obj [("rules", .obj [("analyze_custom_event", .bool true)])])]
      [("rules", .obj [("analyze_custom_event", .bool true)])]
      "custom_event" (.obj []) rfl).1 rfl, rfl⟩

/-- C9: every connector returns a result map and never raises outward —
a failing underlying call is recorded as an `error` field inside that
connector's own result map (shown for the cost breakdown, service costs,
budget status, log query, cluster status and recent-changes connectors) —
and context gathering for a budget alert assembles each context slot from
its own oracle only, so one connector's failure leaves the other slots
intact and the pipeline proceeds. -/
theorem connectors_error_inline
    (e1 e2 e3 e4 e5 e6 : String) (days top hours lim : Int)
    (dr : Int → String × String) (lg : String) (fp : Option String)
    (tsF : Rat → String) (clusterId : Json)
    (emrO : Json → Except String EmrInfo) :
    (getCostBreakdown days dr (.error e1) =
      .obj [("error", .str e1), ("total", .num 0), ("currency", .str "USD")]) ∧
    (getServiceCosts days top dr (.error e2) =
      .obj [("error", .str e2), ("services", .arr []), ("total", .num 0),
        ("currency", .str "USD")]) ∧
    (getBudgetStatus (.error e3) =
      .obj [("error", .str e3), ("budgets", .arr []), ("currency", .str "USD")]) ∧
    (getCloudwatchLogs lg hours fp lim tsF (.error (.other e4)) =
      .obj [("error", .str e4), ("log_group", .str lg), ("entries", .arr []),
        ("entry_count", .num 0), ("truncated", .bool false)]) ∧
    (emrO clusterId = .error e5 →
      getEmrClusterStatus clusterId emrO =
        .obj [("error", .str e5), ("cluster_id", clusterId)]) ∧
    (getRecentChanges hours (.error e6) =
      .obj [("error", .str e6), ("events", .arr []), ("event_count", .num 0)]) ∧
    (∀ (env : Env) (state : AlertState), state.alert_type = some "budget_critical" →
      gatherContext env state = { state with
        context := some [
          ("cost_breakdown", getCostBreakdown 7 env.costRange env.costOracle),
          ("top_services", getServiceCosts 7 5 env.serviceRange env.serviceOracle),
          ("budget_status", getBudgetStatus env.budgetOracle),
          ("recent_changes", getRecentChanges 24 env.changesOracle)] }) := by
  refine ⟨rfl, rfl, rfl, rfl, ?_, rfl, ?_⟩
  · intro h
    simp [getEmrClusterStatus, h]
  · intro env state h
    have hb : strContains "budget_critical" "budget" = true := rfl
    have hc1 : strContains "budget_critical" "cloudwatch_alarm" = false := rfl
    have hc2 : strContains "budget_critical" "emr" = false := rfl
    simp [gatherContext, h, hb, hc1, hc2, exbind_ok, expure_eq]

theorem connectors_error_inline_witness :
    getEmrClusterStatus (.str "j-ABC") sampleEnv.emrOracle =
      .obj [("error", .str "EMR unavailable"), ("cluster_id", .str "j-ABC")] ∧
    gatherContext sampleEnv sampleBudgetState = { sampleBudgetState with
      context := some [
        ("cost_breakdown", getCostBreakdown 7 sampleEnv.costRange sampleEnv.costOracle),
        ("top_services", getServiceCosts 7 5 sampleEnv.serviceRange sampleEnv.serviceOracle),
        ("budget_status", getBudgetStatus sampleEnv.budgetOracle),
        ("recent_changes", getRecentChanges 24 sampleEnv.changesOracle)] } :=
  ⟨(connectors_error_inline "x" "x" "x" "x" "EMR unavailable" "x" 7 5 24 20
      (fun _ => ("", "")) "" none (fun _ => "") (.str "j-ABC")
      sampleEnv.emrOracle).2.2.2.2.1 rfl,
   (connectors_error_inline "x" "x" "x" "x" "x" "x" 7 5 24 20
      (fun _ => ("", "")) "" none (fun _ => "") (.str "j-ABC")
      sampleEnv.emrOracle).2.2.2.2.2.2 sampleEnv sampleBudgetState rfl⟩

/-- C7 amended: with a resolved endpoint, the dispatcher performs exactly
one HTTP POST of the formatted message to the channel-resolved endpoint
and never retries; the delivery is recorded as a success exactly when the
response status is `200` (not any 2xx); a non-200 status or a raised
request exception is recorded as an error. -/
theorem post_single_attempt (env : Env) (state : AlertState) (ch url : String)
    (hCh : state.slack_channel = some ch)
    (hE : state.error = none)
    (hW : env.getenv ("SLACK_" ++ pyUpper ch ++ "_WEBHOOK") = some url) :
    ∃ st', postToSlack env state = .ok (st', [(url, state.slack_message)]) ∧
      st'.slack_message = state.slack_message ∧
      (st'.error = none ↔ ∃ txt, env.http url state.slack_message = .ok ⟨200, txt⟩) ∧
      (∀ e, env.http url state.slack_message = .error e → st'.error = some e) ∧
      (∀ resp, env.http url state.slack_message = .ok resp → resp.status ≠ 200 →
        st'.error = some ("Slack API error: " ++ toString resp.status)) := by
  cases hH : env.http url state.slack_message with
  | error e =>
    refine ⟨{ state with error := some e }, ?_, rfl, ?_, ?_, ?_⟩
    · simp [postToSlack, hCh, hW, hH, exbind_ok, expure_eq]
    · simp
    · intro e' he'
      cases he'
      rfl
    · intro resp hr
      cases hr
  | ok resp =>
    by_cases hs : resp.status = 200
    · refine ⟨state, ?_, rfl, ?_, ?_, ?_⟩
      · simp [postToSlack, hCh, hW, hH, hs, exbind_ok, expure_eq]
      · simp [hE]
        exact ⟨resp.text, by rw [← hs]⟩
      · intro e' he'
        cases he'
      · intro resp' hr hne
        cases hr
        exact absurd hs hne
    · refine ⟨{ state with error := some ("Slack API error: " ++ toString resp.status) },
        ?_, rfl, ?_, ?_, ?_⟩
      · simp [postToSlack, hCh, hW, hH, hs, exbind_ok, expure_eq]
      · constructor
        · intro hcontra
          cases hcontra
        · rintro ⟨txt, htxt⟩
          cases htxt
          exact absurd rfl hs
      · intro e' he'
        cases he'
      · intro resp' hr hne
        cases hr
        rfl

/-- C7 counterexample: a `201 Created` response — a 2xx status — is
recorded as the error `Slack API error: 201`, so "success is any status
in [200, 299]" is false on the code. -/
theorem post_2xx_not_success_cex :
    postToSlack sampleEnv201 sampleDispatchState =
      .ok ({ sampleDispatchState with error := some "Slack API error: 201" },
        [("https://hook", some (.str "m"))]) ∧
    200 ≤ 201 ∧ 201 ≤ 299 ∧ (201 : Nat) ≠ 200 :=
  ⟨rfl, by decide, by decide, by decide⟩

theorem post_single_attempt_witness :
    ∃ st', postToSlack sampleEnv201 sampleDispatchState =
        .ok (st', [("https://hook", sampleDispatchState.slack_message)]) ∧
      st'.slack_message = sampleDispatchState.slack_message ∧
      (st'.error = none ↔ ∃ txt,
        sampleEnv201.http "https://hook" sampleDispatchState.slack_message = .ok ⟨200, txt⟩) ∧
      (∀ e, sampleEnv201.http "https://hook" sampleDispatchState.slack_message = .error e →
        st'.error = some e) ∧
      (∀ resp, sampleEnv201.http "https://hook" sampleDispatchState.slack_message = .ok resp →
        resp.status ≠ 200 →
        st'.error = some ("Slack API error: " ++ toString resp.status)) :=
  post_single_attempt sampleEnv201 sampleDispatchState "critical" "https://hook"
    rfl rfl rfl

/-- `format_response` on a state whose analysis result carries a string
summary and whose context is empty: header, details, divider, the
analysis section built from the fixed prefix plus the summary truncated
to 2500 characters, and the footer. -/
theorem format_with_summary (env : Env) (state : AlertState)
    (alertTy : String) (md : Metadata) (akvs : Metadata) (s : String)
    (hT : state.alert_type = some alertTy)
    (hM : state.alert_metadata = some md)
    (hA : state.analysis_result = some akvs)
    (hS : lookupKey akvs "summary" = some (.str s))
    (hC : state.context = none) :
    formatResponse env state = .ok { state with slack_message := some (.obj
      [("blocks", .arr [
        mkHeaderBlock ((getAlertStyle alertTy state.slack_channel).1 ++
          " AWS Alert: " ++ pyTitle (strReplace alertTy "_" " ")),
        mkSectionBlock (formatAlertDetails alertTy md),
        dividerBlock,
        mkSectionBlock (aiPrefix ++ strTake s 2500),
        mkFooterBlock (mojiClock ++ " " ++ env.nowFmt ++
          " UTC | Powered by AWS Alert Intelligence")]),
      ("text", .str ((getAlertStyle alertTy state.slack_channel).1 ++ " " ++
        pyTitle (strReplace alertTy "_" " ")))]) } := by
  have hany := lookup_any hS
  have hne : akvs.isEmpty = false := by
    cases akvs with
    | nil => simp [lookupKey] at hS
    | cons p rest => rfl
  simp [formatResponse, hT, hM, hA, hC, hS, hany, hne, pySlice2500, pyStr,
    exbind_ok, expure_eq]

/-- C5 amended: the analysis section of a formatted message is the fixed
20-character prefix plus the raw summary truncated to its first 2500
characters; only the summary is truncated, so the embedded summary never
exceeds 2500 characters and the whole section never exceeds 2520 — it is
not the case that the section itself never exceeds 2500. -/
theorem format_analysis_truncation (env : Env) (state : AlertState)
    (alertTy : String) (md : Metadata) (akvs : Metadata) (s : String)
    (hT : state.alert_type = some alertTy)
    (hM : state.alert_metadata = some md)
    (hA : state.analysis_result = some akvs)
    (hS : lookupKey akvs "summary" = some (.str s))
    (hC : state.context = none) :
    formatResponse env state = .ok { state with slack_message := some (.obj
      [("blocks", .arr [
        mkHeaderBlock ((getAlertStyle alertTy state.slack_channel).1 ++
          " AWS Alert: " ++ pyTitle (strReplace alertTy "_" " ")),
        mkSectionBlock (formatAlertDetails alertTy md),
        dividerBlock,
        mkSectionBlock (aiPrefix ++ strTake s 2500),
        mkFooterBlock (mojiClock ++ " " ++ env.nowFmt ++
          " UTC | Powered by AWS Alert Intelligence")]),
      ("text", .str ((getAlertStyle alertTy state.slack_channel).1 ++ " " ++
        pyTitle (strReplace alertTy "_" " ")))]) } ∧
    (strTake s 2500).data.length = min 2500 s.data.length ∧
    (aiPrefix ++ strTake s 2500).data.length = 20 + min 2500 s.data.length ∧
    (aiPrefix ++ strTake s 2500).data.length ≤ 2520 := by
  refine ⟨format_with_summary env state alertTy md akvs s hT hM hA hS hC, ?_, ?_, ?_⟩
  · simp [strTake]
  · have hp : aiPrefix.data.length = 20 := by decide
    show (aiPrefix.data ++ (strTake s 2500).data).length = _
    simp [strTake, hp]
  · have hp : aiPrefix.data.length = 20 := by decide
    show (aiPrefix.data ++ (strTake s 2500).data).length ≤ 2520
    simp [strTake, hp]
    omega

/-- C5 counterexample: with a 2501-character summary the formatted
analysis section is 2520 characters long, exceeding the claimed 2500
bound. -/
theorem format_analysis_len_cex :
    formatResponse sampleEnv sampleAnalyzedState =
      .ok { sampleAnalyzedState with slack_message := some (.obj
        [("blocks", .arr [
          mkHeaderBlock ((getAlertStyle "cloudwatch_alarm_error"
              sampleAnalyzedState.slack_channel).1 ++
            " AWS Alert: " ++ pyTitle (strReplace "cloudwatch_alarm_error" "_" " ")),
          mkSectionBlock (formatAlertDetails "cloudwatch_alarm_error"
            [("alarm_name", .str "API-ERROR-Alarm")]),
          dividerBlock,
          mkSectionBlock (aiPrefix ++ strTake longSummary 2500),
          mkFooterBlock (mojiClock ++ " " ++ sampleEnv.nowFmt ++
            " UTC | Powered by AWS Alert Intelligence")]),
        ("text", .str ((getAlertStyle "cloudwatch_alarm_error"
            sampleAnalyzedState.slack_channel).1 ++ " " ++
          pyTitle (strReplace "cloudwatch_alarm_error" "_" " ")))]) } ∧
    longSummary.data.length = 2501 ∧
    (aiPrefix ++ strTake longSummary 2500).data.length = 2520 ∧
    2500 < 2520 := by
  refine ⟨format_with_summary sampleEnv sampleAnalyzedState "cloudwatch_alarm_error"
      [("alarm_name", .str "API-ERROR-Alarm")] _ longSummary rfl rfl rfl rfl rfl,
    ?_, ?_, by omega⟩
  · show (List.replicate 2501 'a').length = 2501
    rw [List.length_replicate]
  · have hp : aiPrefix.data.length = 20 := by decide
    show (aiPrefix.data ++ (List.take 2500 (List.replicate 2501 'a'))).length = 2520
    rw [List.length_append, List.length_take, List.length_replicate, hp]
    omega

theorem format_analysis_truncation_witness :
    (formatResponse sampleEnv sampleAnalyzedState = .ok
      { sampleAnalyzedState with slack_message := some (.obj
        [("blocks", .arr [
          mkHeaderBlock ((getAlertStyle "cloudwatch_alarm_error"
              sampleAnalyzedState.slack_channel).1 ++
            " AWS Alert: " ++ pyTitle (strReplace "cloudwatch_alarm_error" "_" " ")),
          mkSectionBlock (formatAlertDetails "cloudwatch_alarm_error"
            [("alarm_name", .str "API-ERROR-Alarm")]),
          dividerBlock,
          mkSectionBlock (aiPrefix ++ strTake longSummary 2500),
          mkFooterBlock (mojiClock ++ " " ++ sampleEnv.nowFmt ++
            " UTC | Powered by AWS Alert Intelligence")]),
        ("text", .str ((getAlertStyle "cloudwatch_alarm_error"
            sampleAnalyzedState.slack_channel).1 ++ " " ++
          pyTitle (strReplace "cloudwatch_alarm_error" "_" " ")))]) }) ∧
    (strTake longSummary 2500).data.length = min 2500 longSummary.data.length ∧
    (aiPrefix ++ strTake longSummary 2500).data.length =
      20 + min 2500 longSummary.data.length ∧
    (aiPrefix ++ strTake longSummary 2500).data.length ≤ 2520 :=
  format_analysis_truncation sampleEnv sampleAnalyzedState "cloudwatch_alarm_error"
    [("alarm_name", .str "API-ERROR-Alarm")]
    [("summary", .str longSummary), ("timestamp", .str "2026-10-12T00:00:00"),
      ("model", .str "claude-3-5-sonnet")]
    longSummary rfl rfl rfl rfl rfl

/-- With a resolved channel, dispatch always completes, preserving the
message, context and analysis slots (it only ever writes `error`). -/
theorem post_total_fields (env : Env) (s : AlertState) (c : String)
    (hc : s.slack_channel = some c) :
    ∃ st' reqs, postToSlack env s = .ok (st', reqs) ∧
      st'.slack_message = s.slack_message ∧ st'.context = s.context ∧
      st'.analysis_result = s.analysis_result ∧
      st'.slack_channel = s.slack_channel := by
  cases hgv : env.getenv ("SLACK_" ++ pyUpper c ++ "_WEBHOOK") with
  | none =>
    exact ⟨{ s with error := some ("Missing " ++ ("SLACK_" ++ pyUpper c ++ "_WEBHOOK")) },
      [], by simp [postToSlack, hc, hgv, exbind_ok, expure_eq], rfl, rfl, rfl, rfl⟩
  | some url =>
    cases hh : env.http url s.slack_message with
    | error e =>
      exact ⟨{ s with error := some e }, [(url, s.slack_message)],
        by simp [postToSlack, hc, hgv, hh, exbind_ok, expure_eq], rfl, rfl, rfl, rfl⟩
    | ok resp =>
      by_cases hs : resp.status = 200
      · exact ⟨s, [(url, s.slack_message)],
          by simp [postToSlack, hc, hgv, hh, hs, exbind_ok, expure_eq], rfl, rfl, rfl, rfl⟩
      · exact ⟨{ s with error := some ("Slack API error: " ++ toString resp.status) },
          [(url, s.slack_message)],
          by simp [postToSlack, hc, hgv, hh, hs, exbind_ok, expure_eq], rfl, rfl, rfl, rfl⟩

/-- C4: for every alert routed to the passthrough branch, the pipeline
state has `context = None` and `analysis_result = None` at every later
stage (context gathering and analysis return the state unchanged), the
formatter still produces a message consisting of exactly a header, a
detail section and a footer — no analysis and no context section — and
the message survives dispatch unchanged. -/
theorem passthrough_pipeline (env : Env) (config event : Json) (st1 : AlertState)
    (hC : classifyAlert config (initState event) = .ok st1)
    (hP : st1.alert_type = some "passthrough") :
    st1.context = none ∧ st1.analysis_result = none ∧
    gatherContext env st1 = st1 ∧
    analyzeWithLlm env st1 = st1 ∧
    ∃ st4, formatResponse env st1 = .ok st4 ∧
      st4.context = none ∧ st4.analysis_result = none ∧
      (∃ h d f fb, st4.slack_message = some (.obj [("blocks",
        .arr [mkHeaderBlock h, mkSectionBlock d, mkFooterBlock f]),
        ("text", .str fb)])) ∧
      ∃ st5 reqs, postToSlack env st4 = .ok (st5, reqs) ∧
        st5.slack_message = st4.slack_message ∧
        st5.context = none ∧ st5.analysis_result = none := by
  unfold classifyAlert at hC
  rcases bindOk.mp hC with ⟨msg, hMsg, hC⟩
  rcases bindOk.mp hC with ⟨res, hRes, hC⟩
  rcases bindOk.mp hC with ⟨shd, hShd, hC⟩
  by_cases ht : pyTruthy shd = true
  · simp only [ht, Bool.not_true, Bool.false_eq_true, if_false, expure_eq,
      Except.ok.injEq] at hC
    subst hC
    simp only [AlertState.alert_type, Option.some.injEq] at hP
    have hm := classifyMessage_ok_inv hRes
    rw [hP] at hm
    simp at hm
  · simp only [Bool.not_eq_true] at ht
    simp only [ht, Bool.not_false, if_true, expure_eq, Except.ok.injEq] at hC
    subst hC
    refine ⟨rfl, rfl, by simp [gatherContext], by simp [analyzeWithLlm], ?_⟩
    refine ⟨{ raw_event := (initState event).raw_event
              alert_type := some "passthrough"
              alert_metadata := some res.2.1
              context := none
              analysis_result := none
              slack_message := some (.obj [("blocks", .arr [
                mkHeaderBlock ((getAlertStyle "passthrough" (some res.2.2)).1 ++
                  " AWS Alert: " ++ pyTitle (strReplace "passthrough" "_" " ")),
                mkSectionBlock (formatAlertDetails "passthrough" res.2.1),
                mkFooterBlock (mojiClock ++ " " ++ env.nowFmt ++
                  " UTC | Powered by AWS Alert Intelligence")]),
                ("text", .str ((getAlertStyle "passthrough" (some res.2.2)).1 ++ " " ++
                  pyTitle (strReplace "passthrough" "_" " ")))])
              slack_channel := some res.2.2
              error := (initState event).error },
      by simp [formatResponse, exbind_ok, expure_eq], rfl, rfl,
      ⟨_, _, _, _, rfl⟩, ?_⟩
    obtain ⟨st5, reqs, hpost, hmsg, hctx, hanal, _⟩ :=
      post_total_fields env
        { raw_event := (initState event).raw_event
          alert_type := some "passthrough"
          alert_metadata := some res.2.1
          context := none
          analysis_result := none
          slack_message := some (.obj [("blocks", .arr [
            mkHeaderBlock ((getAlertStyle "passthrough" (some res.2.2)).1 ++
              " AWS Alert: " ++ pyTitle (strReplace "passthrough" "_" " ")),
            mkSectionBlock (formatAlertDetails "passthrough" res.2.1),
            mkFooterBlock (mojiClock ++ " " ++ env.nowFmt ++
              " UTC | Powered by AWS Alert Intelligence")]),
            ("text", .str ((getAlertStyle "passthrough" (some res.2.2)).1 ++ " " ++
              pyTitle (strReplace "passthrough" "_" " ")))])
          slack_channel := some res.2.2
          error := (initState event).error }
        res.2.2 rfl
    exact ⟨st5, reqs, hpost, hmsg, hctx, hanal⟩

theorem passthrough_pipeline_witness :
    ({ raw_event := .obj []
       alert_type := some "passthrough"
       alert_metadata := some []
       slack_channel := some "heartbeat" } : AlertState).context = none ∧
    ({ raw_event := .obj []
       alert_type := some "passthrough"
       alert_metadata := some []
       slack_channel := some "heartbeat" } : AlertState).analysis_result = none ∧
    gatherContext sampleEnv
      { raw_event := .obj []
        alert_type := some "passthrough"
        alert_metadata := some []
        slack_channel := some "heartbeat" } =
      { raw_event := .obj []
        alert_type := some "passthrough"
        alert_metadata := some []
        slack_channel := some "heartbeat" } ∧
    analyzeWithLlm sampleEnv
      { raw_event := .obj []
        alert_type := some "passthrough"
        alert_metadata := some []
        slack_channel := some "heartbeat" } =
      { raw_event := .obj []
        alert_type := some "passthrough"
        alert_metadata := some []
        slack_channel := some "heartbeat" } ∧
    ∃ st4, formatResponse sampleEnv
        { raw_event := .obj []
          alert_type := some "passthrough"
          alert_metadata := some []
          slack_channel := some "heartbeat" } = .ok st4 ∧
      st4.context = none ∧ st4.analysis_result = none ∧
      (∃ h d f fb, st4.slack_message = some (.obj [("blocks",
        .arr [mkHeaderBlock h, mkSectionBlock d, mkFooterBlock f]),
        ("text", .str fb)])) ∧
      ∃ st5 reqs, postToSlack sampleEnv st4 = .ok (st5, reqs) ∧
        st5.slack_message = st4.slack_message ∧
        st5.context = none ∧ st5.analysis_result = none :=
  passthrough_pipeline sampleEnv (.obj []) (.obj [])
    { raw_event := .obj []
      alert_type := some "passthrough"
      alert_metadata := some []
      slack_channel := some "heartbeat" } rfl rfl

/-- Dispatch only ever writes the `error` slot, so the channel survives. -/
theorem post_channel {env : Env} {s : AlertState}
    {p : AlertState × List (String × Option Json)}
    (h : postToSlack env s = .ok p) :
    p.1.slack_channel = s.slack_channel := by
  unfold postToSlack at h
  simp only [Bind.bind, Except.bind, pure, Except.pure] at h
  repeat' split at h
  all_goals (cases h <;> rfl)

/-- C6: when the destination endpoint for the classified channel is not
configured, the dispatcher records the delivery failure
`Missing SLACK_<CHANNEL>_WEBHOOK` without raising and without performing
any HTTP request, and that recorded delivery error makes the overall
invocation result a failure: the handler returns status 500 with a
`Failed to process alert` body. -/
theorem missing_endpoint_fails (env : Env) (config event : Json)
    (st : AlertState) (reqs : List (String × Option Json)) (c : String)
    (hL : loadConfig env = .ok config)
    (hI : initializeLlm env = .ok ())
    (hR : runWorkflow env config event = .ok (st, reqs))
    (hCh : st.slack_channel = some c)
    (hW : env.getenv ("SLACK_" ++ pyUpper c ++ "_WEBHOOK") = none) :
    st.error = some ("Missing " ++ ("SLACK_" ++ pyUpper c ++ "_WEBHOOK")) ∧
    reqs = [] ∧
    lambdaHandler env event = (500, jsonDumps (.obj
      [("error", .str ("Missing " ++ ("SLACK_" ++ pyUpper c ++ "_WEBHOOK"))),
       ("message", .str "Failed to process alert")])) := by
  unfold runWorkflow at hR
  rcases bindOk.mp hR with ⟨st1, h1, hR'⟩
  rcases bindOk.mp hR' with ⟨st4, h4, hPost⟩
  have hch4 : st4.slack_channel = some c := (post_channel hPost).symm.trans hCh
  have hRun : runWorkflow env config event = .ok (st, reqs) := by
    unfold runWorkflow
    rw [bindOk]
    exact ⟨st1, h1, by rw [bindOk]; exact ⟨st4, h4, hPost⟩⟩
  simp only [postToSlack, hch4, hW, exbind_ok, expure_eq] at hPost
  injection hPost with hpair
  have hst := congrArg Prod.fst hpair
  have hreqs := congrArg Prod.snd hpair
  simp only at hst hreqs
  have herr : st.error = some ("Missing " ++ ("SLACK_" ++ pyUpper c ++ "_WEBHOOK")) := by
    rw [← hst]
  refine ⟨herr, hreqs.symm, ?_⟩
  simp [lambdaHandler, hL, hI, hRun, herr, exbind_ok, expure_eq]

theorem missing_endpoint_fails_witness :
    lambdaHandler sampleEnv (.obj []) = (500, jsonDumps (.obj
      [("error", .str "Missing SLACK_HEARTBEAT_WEBHOOK"),
       ("message", .str "Failed to process alert")])) :=
  (missing_endpoint_fails sampleEnv _ (.obj []) _ _ "heartbeat"
    rfl rfl rfl rfl rfl).2.2
